import Mathlib

/-!
Verification of the OAI-PMH request-handling engine and pagination cursor
of this repository (modules `oaipmh/entities.py`, `oaipmh/repository.py`,
`oaipmh/sets.py`), as a shallow embedding in Lean 4.

Python strings are modelled as `List Char` (one entry per code point, which
is exactly what Python's string comparison and slicing operate on), Python
`None`-able attribute values as `Option PyVal`, and Python exceptions as the
`Except PyExc` monad: `.error e` is an exception propagating out of the
modelled call.
-/

set_option maxHeartbeats 1000000

/-- A Python string literal, as the list of its code points. -/
def pyStr (s : String) : List Char := s.toList

/-- Truthiness of a Python string-or-None value (`if x:`): `None` and the
empty string are falsy, any non-empty string is truthy. -/
def pyTruthy : Option (List Char) → Bool
  | none => false
  | some s => !s.isEmpty

/-- Python's `<` on two strings: lexicographic comparison by code point. -/
def pyStrLt : List Char → List Char → Bool
  | _, [] => false
  | [], _ :: _ => true
  | a :: as, b :: bs => decide (a.toNat < b.toNat) || (decide (a.toNat = b.toNat) && pyStrLt as bs)

/-- Python's `<=` on two strings: lexicographic comparison by code point. -/
def pyStrLe : List Char → List Char → Bool
  | [], _ => true
  | _ :: _, [] => false
  | a :: as, b :: bs => decide (a.toNat < b.toNat) || (decide (a.toNat = b.toNat) && pyStrLe as bs)

/-- The decimal digit character for `d` (called with `d < 10` only). -/
def digitChar (d : Nat) : Char := Char.ofNat (48 + d)

/-- The two decimal digits of `m` (for `m ≤ 99`), as Python's `%02d`. -/
def pad2 (m : Nat) : List Char := [digitChar (m / 10 % 10), digitChar (m % 10)]

/-- The four decimal digits of `y` (for `y ≤ 9999`), as Python's `%04d`. -/
def pad4 (y : Nat) : List Char :=
  [digitChar (y / 1000 % 10), digitChar (y / 100 % 10), digitChar (y / 10 % 10), digitChar (y % 10)]

/-- Fuel-driven core of `pyStrOfNat` (the fuel makes it structural; it is
always called with enough fuel). -/
def pyStrOfNatCore : Nat → Nat → List Char → List Char
  | 0, _, acc => acc
  | fuel + 1, n, acc =>
    if n < 10 then digitChar (n % 10) :: acc
    else pyStrOfNatCore fuel (n / 10) (digitChar (n % 10) :: acc)

/-- Python's `str(n)` for a non-negative integer `n`: its decimal digits,
no padding, no sign. -/
def pyStrOfNat (n : Nat) : List Char := pyStrOfNatCore (n + 1) n []

/-- Whether `c` is one of the ASCII digits `0`..`9` (`\d` for the data at
hand; Python's `\d` also covers other Unicode digits, which never occur in
the tokens this repository builds). -/
def isDigitChar (c : Char) : Bool := 48 ≤ c.toNat && c.toNat ≤ 57

/-- Python's `int(s)` on a string: the numeric value when `s` is a non-empty
all-digit string, `none` (a `ValueError`) otherwise. Python also accepts
signs, surrounding blanks and underscores, which never occur in the digit
fields this repository parses. -/
def pyInt? (s : List Char) : Option Nat :=
  if !s.isEmpty && s.all isDigitChar then
    some (s.foldl (fun a c => a * 10 + (c.toNat - 48)) 0)
  else none

/-- Python's `s.index(c)`: the first index of `c` in `s`, `none` (a
`ValueError`) when absent. -/
def pyIndexOf? (c : Char) : List Char → Option Nat
  | [] => none
  | x :: xs => if x = c then some 0 else (pyIndexOf? c xs).map (· + 1)

/-- Python's `s.split(':')`: split on every colon; no colon gives `[s]`,
and the empty string gives `[[]]`. -/
def splitOnColon : List Char → List (List Char)
  | [] => [[]]
  | c :: rest =>
    if c = ':' then [] :: splitOnColon rest
    else
      match splitOnColon rest with
      | [] => [[c]]
      | p :: ps => (c :: p) :: ps

/-- Python's `':'.join(parts)`. -/
def joinColon : List (List Char) → List Char
  | [] => []
  | [p] => p
  | p :: ps => p ++ ':' :: joinColon ps

/-- The ten characters `YYYY-MM-DD` of a date (for `y ≤ 9999`, `m, d ≤ 99`). -/
def dateChars (y m d : Nat) : List Char := pad4 y ++ '-' :: (pad2 m ++ '-' :: pad2 d)

/-- A Python attribute value as this repository stores them: a string or a
non-negative integer (`oaipmh` only ever stores strings, and the dispatcher's
fresh tokens store the configured page length as an `int`). `Option PyVal`
adds the `None` case. -/
inductive PyVal where
  | str : List Char → PyVal
  | int : Nat → PyVal
deriving DecidableEq, Repr

/-- The Python exceptions observable in the modelled modules. The first four
are the repository's own (`repository.BadArgumentError`,
`repository.BadResumptionTokenError`, `repository.SetNameError`,
`datastores.DoesNotExistError`); the rest are builtin exception classes that
the dispatcher does not catch. -/
inductive PyExc where
  | badArgumentError
  | badResumptionTokenError
  | setNameError
  | doesNotExistError
  | keyError
  | valueError
  | typeError
  | attributeError
deriving DecidableEq, Repr

/-- The `ensure_str` helper of both `encode` implementations: `str(obj)`,
with `None` becoming the empty string. -/
def ensureStr : Option PyVal → List Char
  | none => []
  | some (.str s) => s
  | some (.int n) => pyStrOfNat n

/-- Python's `int(x)` on an attribute value: an `int` is itself, a string
goes through `int(str)` (`ValueError` on junk), `None` is a `TypeError`. -/
def pyIntOfVal : Option PyVal → Except PyExc Nat
  | none => .error .typeError
  | some (.int n) => .ok n
  | some (.str s) =>
    match pyInt? s with
    | some n => .ok n
    | none => .error .valueError

/-- The namedtuple `OAIRequest` of `entities.py`: the seven request
arguments, each a string or absent. `handle_request` fills them from the
parsed query string. -/
structure OAIRequest where
  verb : Option (List Char)
  identifier : Option (List Char)
  metadataPrefix : Option (List Char)
  set : Option (List Char)
  resumptionToken : Option (List Char)
  from_ : Option (List Char)
  until_ : Option (List Char)
deriving DecidableEq, Repr

/-- The class `entities.ResumptionToken`: one attribute per entry of its
`attrs` list, each `None` or a value (`__init__` stores whatever the kwargs
hold; this repository stores strings, and the dispatcher's fresh tokens an
`int` count). -/
structure ResumptionToken where
  set : Option PyVal
  from_ : Option PyVal
  until_ : Option PyVal
  offset : Option PyVal
  count : Option PyVal
  metadataPrefix : Option PyVal
deriving DecidableEq, Repr

/-- The attribute values of a token, in the order of
`ResumptionToken.attrs`. -/
def tokenFieldsList (t : ResumptionToken) : List (Option PyVal) :=
  [t.set, t.from_, t.until_, t.offset, t.count, t.metadataPrefix]

/-- The attribute of a token at position `i` of `ResumptionToken.attrs`. -/
def tokenField (i : Nat) (t : ResumptionToken) : Option PyVal :=
  ((tokenFieldsList t).get? i).join

/-- `ResumptionToken.encode`: the `:`-joined `ensure_str` images of the six
attributes, in `attrs` order. -/
def ResumptionToken.encode (t : ResumptionToken) : List Char :=
  joinColon ((tokenFieldsList t).map ensureStr)

/-- `ResumptionToken.decode`: split on `:` and zip with the six attribute
names; extra parts are dropped and missing trailing parts leave the
attribute `None` (`kwargs.get(attr, None)` in `__init__`). -/
def ResumptionToken.decode (s : List Char) : ResumptionToken :=
  let values := splitOnColon s
  { set := (values.get? 0).map .str
    from_ := (values.get? 1).map .str
    until_ := (values.get? 2).map .str
    offset := (values.get? 3).map .str
    count := (values.get? 4).map .str
    metadataPrefix := (values.get? 5).map .str }

/-- The `__eq__` of `ResumptionToken`: equality of the hashes of the
canonical encodings, i.e. two tokens are equal iff they encode to the same
string. -/
def tokensEq (a b : ResumptionToken) : Bool := a.encode == b.encode

/-- `ResumptionToken.query_offset`: the integer between `(` and the final
`)` of the textual offset. `None` or an `int` offset has no `.index`
attribute (`AttributeError`); a string without `(`, or with junk between
the parentheses, raises `ValueError`. -/
def ResumptionToken.query_offset (t : ResumptionToken) : Except PyExc Nat :=
  match t.offset with
  | some (.str s) =>
    match pyIndexOf? '(' s with
    | none => .error .valueError
    | some i =>
      match pyInt? ((s.drop (i + 1)).dropLast) with
      | none => .error .valueError
      | some k => .ok k
  | some (.int _) => .error .attributeError
  | none => .error .attributeError

/-- `ResumptionToken.query_from`: the first ten characters of the textual
offset. Slicing `None` or an `int` raises `TypeError`. -/
def ResumptionToken.query_from (t : ResumptionToken) : Except PyExc (List Char) :=
  match t.offset with
  | some (.str s) => .ok (s.take 10)
  | some (.int _) => .error .typeError
  | none => .error .typeError

/-- `ResumptionToken.query_until`: `min(until, <anchor year>-12-31)` by
string comparison — the source returns `self._upper_limit()` when
`self._upper_limit() <= ref_date[:4] + '-12-31'` and the year-end
otherwise. Comparing `None` or an `int` against a string raises
`TypeError`. -/
def ResumptionToken.query_until (t : ResumptionToken) : Except PyExc (List Char) := do
  let ref ← t.query_from
  let yearEnd := ref.take 4 ++ pyStr "-12-31"
  match t.until_ with
  | some (.str u) => if pyStrLe u yearEnd then .ok u else .ok yearEnd
  | some (.int _) => .error .typeError
  | none => .error .typeError

/-- `ResumptionToken._has_more_search_space`:
`self.query_until() < self._upper_limit()`. -/
def ResumptionToken.has_more_search_space (t : ResumptionToken) : Except PyExc Bool := do
  let qu ← t.query_until
  match t.until_ with
  | some (.str u) => .ok (pyStrLt qu u)
  | some (.int _) => .error .typeError
  | none => .error .typeError

/-- `ResumptionToken._has_more_resources`:
`len(resources) == int(batch_size)`. -/
def ResumptionToken.has_more_resources {ρ : Type} (resources : List ρ)
    (batchSize : Option PyVal) : Except PyExc Bool := do
  let b ← pyIntOfVal batchSize
  .ok (resources.length == b)

/-- `ResumptionToken._incr_offset_size`: same anchor, skip advanced by
`int(count)` — the new offset is `'%s(%s)' % (query_from(), query_offset()
+ int(count))`. -/
def ResumptionToken.incr_offset_size (t : ResumptionToken) : Except PyExc ResumptionToken := do
  let k ← t.query_offset
  let c ← pyIntOfVal t.count
  let qf ← t.query_from
  .ok { t with offset := some (.str (qf ++ '(' :: (pyStrOfNat (k + c) ++ [')']))) }

/-- `ResumptionToken._incr_offset_from`: anchor moved to January 1 of the
next year, skip reset — the new offset is
`'%s-01-01(0)' % str(int(query_from()[:4]) + 1)`. -/
def ResumptionToken.incr_offset_from (t : ResumptionToken) : Except PyExc ResumptionToken := do
  let qf ← t.query_from
  match pyInt? (qf.take 4) with
  | none => .error .valueError
  | some y =>
    .ok { t with offset := some (.str (pyStrOfNat (y + 1) ++ pyStr "-01-01(0)")) }

/-- `ResumptionToken.next`: a full page advances the skip, otherwise
remaining search space rolls the year, otherwise the scan is over
(`None`). -/
def ResumptionToken.next {ρ : Type} (t : ResumptionToken) (resources : List ρ) :
    Except PyExc (Option ResumptionToken) := do
  let full ← ResumptionToken.has_more_resources resources t.count
  if full then do
    let t' ← t.incr_offset_size
    .ok (some t')
  else do
    let more ← t.has_more_search_space
    if more then do
      let t' ← t.incr_offset_from
      .ok (some t')
    else .ok none

deriving instance DecidableEq for Except

/-- Whether `c` matches the regex class `\w` (ASCII letters, digits and
underscore; Python's `\w` also covers other Unicode word characters, which
never occur in the tokens this repository builds or validates). -/
def isWordChar (c : Char) : Bool := c.isAlphanum || c == '_'

/-- Whether a field matches `(\w+)?`: empty, or non-empty and all word
characters. -/
def matchWordOpt (p : List Char) : Bool := p.all isWordChar

/-- Whether a field matches `\w+`. -/
def matchWord (p : List Char) : Bool := !p.isEmpty && p.all isWordChar

/-- Whether a field matches `(\d{4})-(\d{2})-(\d{2})`. -/
def matchDate (p : List Char) : Bool :=
  match p with
  | [a, b, c, d, e, f, g, h, i, j] =>
    isDigitChar a && isDigitChar b && isDigitChar c && isDigitChar d && (e == '-')
      && isDigitChar f && isDigitChar g && (h == '-') && isDigitChar i && isDigitChar j
  | _ => false

/-- Whether a field matches `((\d{4})-(\d{2})-(\d{2}))?`. -/
def matchDateOpt (p : List Char) : Bool := p.isEmpty || matchDate p

/-- Whether a field matches `\d+`. -/
def matchNat (p : List Char) : Bool := !p.isEmpty && p.all isDigitChar

/-- Whether a field matches `(\d{4})-(\d{2})-(\d{2})\(\d+\)` (the
date-anchored offset of the `ListRecords` token pattern of
`entities.py`). -/
def matchAnchoredOffset (p : List Char) : Bool :=
  matchDate (p.take 10) &&
    match p.drop 10 with
    | '(' :: rest =>
      !rest.dropLast.isEmpty && rest.dropLast.all isDigitChar && (rest.getLast? == some ')')
    | _ => false

/-- Full match of a token against a six-field `:`-delimited pattern. Each
of the three regexes in `entities.ResumptionToken.token_patterns` (and the
three in `repository.RESUMPTION_TOKEN_PATTERNS`) is anchored (`^...$`) and
consists of six field sub-patterns joined by five literal `:`; none of the
field classes (`\w`, `\d`, `-`, `\(`, `\)`) can consume a `:`, so
`re.fullmatch` succeeds exactly when splitting on `:` yields six fields
each matching its sub-pattern. -/
def matchesSix (f0 f1 f2 f3 f4 f5 : List Char → Bool) (s : List Char) : Bool :=
  match splitOnColon s with
  | [p0, p1, p2, p3, p4, p5] => f0 p0 && f1 p1 && f2 p2 && f3 p3 && f4 p4 && f5 p5
  | _ => false

/-- `entities.ResumptionToken.token_patterns['ListRecords']`:
`^(\w+)?:((\d{4})-(\d{2})-(\d{2}))?:((\d{4})-(\d{2})-(\d{2}))?:(\d{4})-(\d{2})-(\d{2})\(\d+\):\d+:\w+$`. -/
def entitiesListRecordsPattern : List Char → Bool :=
  matchesSix matchWordOpt matchDateOpt matchDateOpt matchAnchoredOffset matchNat matchWord

/-- `entities.ResumptionToken.token_patterns['ListIdentifiers']`:
`^(\w+)?:((\d{4})-(\d{2})-(\d{2}))?:((\d{4})-(\d{2})-(\d{2}))?:\d+:\d+:\w+$`. -/
def entitiesListIdentifiersPattern : List Char → Bool :=
  matchesSix matchWordOpt matchDateOpt matchDateOpt matchNat matchNat matchWord

/-- `entities.ResumptionToken.token_patterns['ListSets']`:
`^:((\d{4})-(\d{2})-(\d{2}))?:((\d{4})-(\d{2})-(\d{2}))?:\d+:\d+:$`. -/
def entitiesListSetsPattern : List Char → Bool :=
  matchesSix (fun p => p.isEmpty) matchDateOpt matchDateOpt matchNat matchNat (fun p => p.isEmpty)

/-- `entities.ResumptionToken._get_validation_pattern`: the class's
`token_patterns` dict lookup, with a missing verb (including `None`)
raising `ValueError` (modelled by `none`). -/
def entitiesPatternFor : Option (List Char) → Option (List Char → Bool)
  | none => none
  | some s =>
    if s = pyStr "ListRecords" then some entitiesListRecordsPattern
    else if s = pyStr "ListIdentifiers" then some entitiesListIdentifiersPattern
    else if s = pyStr "ListSets" then some entitiesListSetsPattern
    else none

/-- `entities.ResumptionToken.new_from_request`: with a truthy token,
validate its syntax against the verb's pattern (`BadResumptionToken` on
failure, `ValueError` for a verb with no pattern), decode it and reject a
`count` that differs from `default_count`; with no token, mint a fresh
cursor from the request fields and the server defaults. -/
def ResumptionToken.new_from_request (r : OAIRequest) (defaultCount : Nat)
    (defaultFrom defaultUntil : List Char) : Except PyExc ResumptionToken :=
  if pyTruthy r.resumptionToken then
    match entitiesPatternFor r.verb with
    | none => .error .valueError
    | some pat =>
      if !pat (r.resumptionToken.getD []) then .error .badResumptionTokenError
      else
        let token := ResumptionToken.decode (r.resumptionToken.getD [])
        match pyIntOfVal token.count with
        | .error e => .error e
        | .ok c =>
          if c ≠ defaultCount then .error .badResumptionTokenError
          else .ok token
  else
    .ok { set := r.set.map .str
          from_ := some (.str ((r.from_.filter (fun s => !s.isEmpty)).getD defaultFrom))
          until_ := some (.str ((r.until_.filter (fun s => !s.isEmpty)).getD defaultUntil))
          offset := some (.str ((r.from_.filter (fun s => !s.isEmpty)).getD defaultFrom ++ pyStr "(0)"))
          count := some (.str (pyStrOfNat defaultCount))
          metadataPrefix := r.metadataPrefix.map .str }

/-- Lookup in a Python dict built by successive insertions from an
association list: the value of the last insertion with the given key. -/
def dictGet? {α β : Type} [BEq α] (l : List (α × β)) (k : α) : Option β :=
  (l.reverse.find? (fun p => p.1 == k)).map (·.2)

/-- The namedtuple `sets.Set`: a set's spec and display name. -/
structure SetEnt where
  setSpec : Option PyVal
  setName : Option PyVal
deriving DecidableEq, Repr

/-- `sets.SetsRegistry`: the statically declared sets with their view
functions (`static_defs`), and the listing behaviour. `listFn` is modelled
from the spec: §6 specifies the consumed interface `list(offset, count) ->
sequence of named sets`, which is how `repository.Repository.list_sets`
calls it; the `sets.py` under `src/` declares `list(self)` without the two
parameters, an incompatibility of the two source generations that no claim
is about. `V` is the opaque type of view functions (they are only handed to
the data store). -/
structure SetsRegistry (V : Type) where
  staticDefs : List (SetEnt × V)
  listFn : Nat → Nat → List SetEnt

/-- `sets.SetsRegistry.get_view`: `self.static_views.get(name)`, the dict
`{s.setSpec: view}` built from `static_defs`. -/
def SetsRegistry.get_view {V : Type} (reg : SetsRegistry V) (name : Option PyVal) : Option V :=
  dictGet? (reg.staticDefs.map (fun sv => (sv.1.setSpec, sv.2))) name

/-- The `DataStore` capability as the engine consumes it. `get` returns
`none` where the store raises `DoesNotExistError`. `list` is modelled from
the spec: §6 specifies `list(offset, count, view, from, until)`, the
positional shape of the call in `repository.Repository._filter_records`
(the concrete stores in `datastores.py` declare `list(view, offset, count,
_from, until)` instead, another incompatibility of the two source
generations that no claim is about: the collaborator is injected, and we
model the interface the core consumes). -/
structure DataStore (ρ V : Type) where
  get : Option (List Char) → Option ρ
  list : Nat → Nat → V → Option PyVal → Option PyVal → List ρ

/-- One entry of the `Repository.formats` registry
(`add_metadataformat`): the claims only observe the augmenter; the
`MetadataFormat` record and the formatter are consumed opaquely by the
serializer. -/
structure FormatEntry (ρ : Type) where
  augmenter : ρ → ρ

/-- `repository.Repository`: the injected collaborators and configuration.
The repository metadata is consumed opaquely by the serializers and is not
modelled. -/
structure Repository (ρ V : Type) where
  ds : DataStore ρ V
  setsreg : SetsRegistry V
  listslen : Nat
  formats : List (List Char × FormatEntry ρ)

/-- Modelled from the spec (§6 Serializer, §7 error taxonomy): the
`serializers` module is not under `src/`, so each serializer call of
`repository.py` is modelled as the tagged response it renders, carrying the
payload fields the claims inspect (resources and the encoded resumption
token). `noRecordsMatch` is in the spec's taxonomy and asserted by the test
suite, but no code path of `repository.py` produces it. -/
inductive OAIResponse (ρ : Type) where
  | identify
  | getRecord (resource : ρ)
  | listRecords (resources : List ρ) (resumptionToken : List Char)
  | listIdentifiers (resources : List ρ) (resumptionToken : List Char)
  | listMetadataFormats
  | listSets (sets : List SetEnt) (resumptionToken : List Char)
  | badVerb
  | badArgument
  | idDoesNotExist
  | cannotDisseminateFormat
  | badResumptionToken
  | noRecordsMatch
deriving DecidableEq, Repr

/-- `repository.RESUMPTION_TOKEN_PATTERNS['ListRecords']`:
`^(\w+)?:((\d{4})-(\d{2})-(\d{2}))?:((\d{4})-(\d{2})-(\d{2}))?:\d+:\d+:\w+$`
(plain integer offset, mandatory metadata prefix). -/
def repoListRecordsPattern : List Char → Bool :=
  matchesSix matchWordOpt matchDateOpt matchDateOpt matchNat matchNat matchWord

/-- `repository.RESUMPTION_TOKEN_PATTERNS['ListIdentifiers']`:
`^(\w+)?:((\d{4})-(\d{2})-(\d{2}))?:((\d{4})-(\d{2})-(\d{2}))?:\d+:\d+:$`. -/
def repoListIdentifiersPattern : List Char → Bool :=
  matchesSix matchWordOpt matchDateOpt matchDateOpt matchNat matchNat (fun p => p.isEmpty)

/-- `repository.RESUMPTION_TOKEN_PATTERNS['ListSets']`:
`^:((\d{4})-(\d{2})-(\d{2}))?:((\d{4})-(\d{2})-(\d{2}))?:\d+:\d+:$`. -/
def repoListSetsPattern : List Char → Bool :=
  matchesSix (fun p => p.isEmpty) matchDateOpt matchDateOpt matchNat matchNat (fun p => p.isEmpty)

/-- `RESUMPTION_TOKEN_PATTERNS[oairequest.verb]` in
`repository.get_resumption_token_from_request`: a verb outside the dict
(including `None`) raises `KeyError` (modelled by `none`). -/
def repoPatternFor : Option (List Char) → Option (List Char → Bool)
  | none => none
  | some s =>
    if s = pyStr "ListRecords" then some repoListRecordsPattern
    else if s = pyStr "ListIdentifiers" then some repoListIdentifiersPattern
    else if s = pyStr "ListSets" then some repoListSetsPattern
    else none

/-- `repository.decode_resumption_token` reads `ResumptionToken._fields`.
The `entities.ResumptionToken` class is not a namedtuple and defines no
`_fields` attribute, so every call raises `AttributeError` before any
decoding happens. -/
def decode_resumption_token (_token : List Char) : Except PyExc ResumptionToken :=
  .error .attributeError

/-- `repository.encode_resumption_token` iterates the token
(`for part in token`). `entities.ResumptionToken` defines neither
`__iter__` nor `__getitem__`, so every call raises `TypeError: object is
not iterable`. -/
def encode_resumption_token (_token : ResumptionToken) : Except PyExc (List Char) :=
  .error .typeError

/-- `repository.get_resumption_token_from_request`: with a truthy token,
look up the verb's pattern, reject a syntactically invalid token
(`BadResumptionToken`), decode it (which in this code crashes, see
`decode_resumption_token`) and reject a `count` differing from
`default_count`; with no token, mint a fresh cursor with textual offset
`'0'` and the configured list length as `count`. -/
def get_resumption_token_from_request (r : OAIRequest) (defaultCount : Nat) :
    Except PyExc ResumptionToken :=
  if pyTruthy r.resumptionToken then
    match repoPatternFor r.verb with
    | none => .error .keyError
    | some pat =>
      if !pat (r.resumptionToken.getD []) then .error .badResumptionTokenError
      else do
        let token ← decode_resumption_token (r.resumptionToken.getD [])
        let c ← pyIntOfVal token.count
        if c ≠ defaultCount then .error .badResumptionTokenError
        else .ok token
  else
    .ok { set := r.set.map .str
          from_ := r.from_.map .str
          until_ := r.until_.map .str
          offset := some (.str (pyStr "0"))
          count := some (.int defaultCount)
          metadataPrefix := r.metadataPrefix.map .str }

/-- `repository.has_more_resources`: `len(resources) == int(batch_size)`. -/
def has_more_resources {ρ : Type} (resources : List ρ) (batchSize : Option PyVal) :
    Except PyExc Bool := do
  let b ← pyIntOfVal batchSize
  .ok (resources.length == b)

/-- `repository.inc_resumption_token`: the new offset is
`str(1 + int(offset) + int(count))`. -/
def inc_resumption_token (t : ResumptionToken) : Except PyExc ResumptionToken := do
  let off ← pyIntOfVal t.offset
  let c ← pyIntOfVal t.count
  .ok { t with offset := some (.str (pyStrOfNat (1 + off + c))) }

/-- `repository.next_resumption_token`: a full page advances the offset,
anything else ends the listing (`None`). -/
def next_resumption_token {ρ : Type} (t : ResumptionToken) (resources : List ρ) :
    Except PyExc (Option ResumptionToken) := do
  let full ← has_more_resources resources t.count
  if full then do
    let t' ← inc_resumption_token t
    .ok (some t')
  else .ok none

/-- The seven argument names of `repository.OAIPMH_LEGAL_ARGS`. -/
def legalArgNames : List (List Char) :=
  [pyStr "verb", pyStr "identifier", pyStr "metadataPrefix", pyStr "set",
   pyStr "resumptionToken", pyStr "from", pyStr "until"]

/-- The `(stripped name, truthiness)` pairs of `asdict(oaireq)`, in
namedtuple field order (`asdict` strips the trailing underscore of
`from_`). -/
def argPairs (r : OAIRequest) : List (List Char × Bool) :=
  [(pyStr "verb", pyTruthy r.verb), (pyStr "identifier", pyTruthy r.identifier),
   (pyStr "metadataPrefix", pyTruthy r.metadataPrefix), (pyStr "set", pyTruthy r.set),
   (pyStr "resumptionToken", pyTruthy r.resumptionToken), (pyStr "from", pyTruthy r.from_),
   (pyStr "until", pyTruthy r.until_)]

/-- The `detected_args` of the `check_request_args` decorator: the names of
the request attributes with truthy values. -/
def detectedArgs (r : OAIRequest) : List (List Char) :=
  ((argPairs r).filter (fun p => p.2)).map (·.1)

/-- Insertion into a sorted list of strings, for `are_equal`'s `sorted`. -/
def pyInsert (x : List Char) : List (List Char) → List (List Char)
  | [] => [x]
  | y :: ys => if pyStrLe x y then x :: y :: ys else y :: pyInsert x ys

/-- Python's `sorted` on a list of strings (insertion sort; the comparison
is a total order, so any sort yields the same list). -/
def pySortStrs (l : List (List Char)) : List (List Char) := l.foldr pyInsert []

/-- `repository.are_equal`: `sorted(expected_args) == sorted(detected_args)`. -/
def are_equal (expected detected : List (List Char)) : Bool :=
  pySortStrs expected == pySortStrs detected

/-- `repository.check_listrecords_args`. -/
def check_listrecords_args (d : List (List Char)) : Bool :=
  if !d.contains (pyStr "verb") then false
  else if d.contains (pyStr "resumptionToken") then
    !(d.contains (pyStr "from") || d.contains (pyStr "until")
      || d.contains (pyStr "set") || d.contains (pyStr "metadataPrefix"))
  else d.contains (pyStr "metadataPrefix")

/-- `repository.check_listidentifiers_args`. -/
def check_listidentifiers_args (d : List (List Char)) : Bool :=
  if !d.contains (pyStr "verb") then false
  else if d.contains (pyStr "resumptionToken") then
    !(d.contains (pyStr "from") || d.contains (pyStr "until")
      || d.contains (pyStr "set") || d.contains (pyStr "metadataPrefix"))
  else !d.contains (pyStr "metadataPrefix")

/-- `repository.check_listsets_args`. -/
def check_listsets_args (d : List (List Char)) : Bool :=
  if !d.contains (pyStr "verb") then false
  else if d.contains (pyStr "resumptionToken") then
    !(d.contains (pyStr "from") || d.contains (pyStr "until") || d.contains (pyStr "set"))
  else !d.contains (pyStr "metadataPrefix")

/-- A parsed query string as `urllib.parse.parse_qs` returns it: each
recognised key with its list of values. `parse_qs` never produces an empty
value list nor a repeated key; inputs outside that invariant are outside
the modelled domain (`values[0]` of an empty list would raise
`IndexError`, modelled as the argument being absent). -/
def ParsedQS : Type := List (List Char × List (List Char))

/-- `repository.get_or_default`: `mapping[key][0]`, or the default (`None`)
when the key is absent. -/
def get_or_default (q : ParsedQS) (k : List Char) : Option (List Char) :=
  match dictGet? q k with
  | none => none
  | some vs => vs.head?

/-- `repository.has_illegal_args`: some key outside the seven legal
names. -/
def has_illegal_args (q : ParsedQS) : Bool :=
  q.any (fun kv => !legalArgNames.contains kv.1)

/-- `repository.has_repeated_args`: some key with more than one value. -/
def has_repeated_args (q : ParsedQS) : Bool :=
  q.any (fun kv => kv.2.length > 1)

/-- `repository.oairequest_from_querystring`. -/
def oairequest_from_querystring (q : ParsedQS) : OAIRequest :=
  { verb := get_or_default q (pyStr "verb")
    identifier := get_or_default q (pyStr "identifier")
    metadataPrefix := get_or_default q (pyStr "metadataPrefix")
    set := get_or_default q (pyStr "set")
    resumptionToken := get_or_default q (pyStr "resumptionToken")
    from_ := get_or_default q (pyStr "from")
    until_ := get_or_default q (pyStr "until") }

/-- Membership test `oairequest.metadataPrefix not in self.formats` (a
`None` prefix is never a key of the formats dict, whose keys are the
registered prefix strings). -/
def formatsMem {ρ : Type} (fs : List (List Char × FormatEntry ρ)) (k : Option (List Char)) : Bool :=
  match k with
  | some s => (dictGet? fs s).isSome
  | none => false

/-- Subscript `self.formats[key]`: `KeyError` when the key is absent or not
a string. -/
def formatsGet {ρ : Type} (fs : List (List Char × FormatEntry ρ)) (k : Option PyVal) :
    Except PyExc (FormatEntry ρ) :=
  match k with
  | some (.str s) =>
    match dictGet? fs s with
    | some e => .ok e
    | none => .error .keyError
  | _ => .error .keyError

/-- `repository.Repository._filter_records`: resolve the token's set to a
view (`SetNameError` when the registry has none), then query the data
store with the cursor's offset, count, bounds. -/
def Repository.filter_records {ρ V : Type} (repo : Repository ρ V) (token : ResumptionToken) :
    Except PyExc (List ρ) :=
  match repo.setsreg.get_view token.set with
  | none => .error .setNameError
  | some view => do
    let off ← pyIntOfVal token.offset
    let cnt ← pyIntOfVal token.count
    .ok (repo.ds.list off cnt view token.from_ token.until_)

/-- `serialize_list_records` / `serialize_list_identifiers` /
`serialize_list_sets` encode the next token first: `''` for `None`, else
`encode_resumption_token` (which in this code raises `TypeError`, see
there). -/
def encodeNextToken (tok : Option ResumptionToken) : Except PyExc (List Char) :=
  match tok with
  | none => .ok []
  | some t => encode_resumption_token t

/-- `repository.Repository.identify` (with its `check_request_args`
decorator, which raises `BadArgumentError` on a failed check). -/
def Repository.identify {ρ V : Type} (_repo : Repository ρ V) (r : OAIRequest) :
    Except PyExc (OAIResponse ρ) :=
  if !are_equal [pyStr "verb"] (detectedArgs r) then .error .badArgumentError
  else .ok .identify

/-- `repository.Repository.get_record` (with its decorator): exactly
`verb`, `metadataPrefix`, `identifier`; unregistered prefix is a
`cannotDisseminateFormat` response, a missing resource raises
`DoesNotExistError`. -/
def Repository.get_record {ρ V : Type} (repo : Repository ρ V) (r : OAIRequest) :
    Except PyExc (OAIResponse ρ) :=
  if !are_equal [pyStr "verb", pyStr "metadataPrefix", pyStr "identifier"] (detectedArgs r) then
    .error .badArgumentError
  else if !formatsMem repo.formats r.metadataPrefix then .ok .cannotDisseminateFormat
  else do
    let fmt ← formatsGet repo.formats (r.metadataPrefix.map .str)
    match repo.ds.get r.identifier with
    | none => .error .doesNotExistError
    | some res => .ok (.getRecord (fmt.augmenter res))

/-- `repository.Repository.list_records` (with its decorator): without a
token an unregistered request prefix is a `cannotDisseminateFormat`
response; then resolve the cursor, look the cursor's prefix up in the
formats dict (`KeyError` when unregistered — the token path never checked
it), filter, augment, advance the cursor and serialize. -/
def Repository.list_records {ρ V : Type} (repo : Repository ρ V) (r : OAIRequest) :
    Except PyExc (OAIResponse ρ) :=
  if !check_listrecords_args (detectedArgs r) then .error .badArgumentError
  else if !pyTruthy r.resumptionToken && !formatsMem repo.formats r.metadataPrefix then
    .ok .cannotDisseminateFormat
  else do
    let token ← get_resumption_token_from_request r repo.listslen
    let fmt ← formatsGet repo.formats token.metadataPrefix
    let rs ← repo.filter_records token
    let resources := rs.map fmt.augmenter
    let nextTok ← next_resumption_token token resources
    let enc ← encodeNextToken nextTok
    .ok (.listRecords resources enc)

/-- `repository.Repository.list_identifiers` (with its decorator): resolve
the cursor, filter (no format handling at all), advance, serialize. -/
def Repository.list_identifiers {ρ V : Type} (repo : Repository ρ V) (r : OAIRequest) :
    Except PyExc (OAIResponse ρ) :=
  if !check_listidentifiers_args (detectedArgs r) then .error .badArgumentError
  else do
    let token ← get_resumption_token_from_request r repo.listslen
    let rs ← repo.filter_records token
    let nextTok ← next_resumption_token token rs
    let enc ← encodeNextToken nextTok
    .ok (.listIdentifiers rs enc)

/-- `repository.Repository.list_metadata_formats` (with its decorator:
only `verb`). -/
def Repository.list_metadata_formats {ρ V : Type} (_repo : Repository ρ V) (r : OAIRequest) :
    Except PyExc (OAIResponse ρ) :=
  if !are_equal [pyStr "verb"] (detectedArgs r) then .error .badArgumentError
  else .ok .listMetadataFormats

/-- `repository.Repository.list_sets` (with its decorator): resolve the
cursor, list the sets registry, advance, serialize. -/
def Repository.list_sets {ρ V : Type} (repo : Repository ρ V) (r : OAIRequest) :
    Except PyExc (OAIResponse ρ) :=
  if !check_listsets_args (detectedArgs r) then .error .badArgumentError
  else do
    let token ← get_resumption_token_from_request r repo.listslen
    let off ← pyIntOfVal token.offset
    let cnt ← pyIntOfVal token.count
    let setsList := repo.setsreg.listFn off cnt
    let nextTok ← next_resumption_token token setsList
    let enc ← encodeNextToken nextTok
    .ok (.listSets setsList enc)

/-- The keys of the `self.verbs` dispatch dict. -/
inductive VerbT where
  | identifyV
  | getRecordV
  | listRecordsV
  | listIdentifiersV
  | listMetadataFormatsV
  | listSetsV
deriving DecidableEq, Repr

/-- `self.verbs[oairequest.verb]`: `none` models the `KeyError` that
`handle_request` turns into a `badVerb` response. -/
def verbLookup : Option (List Char) → Option VerbT
  | none => none
  | some s =>
    if s = pyStr "Identify" then some .identifyV
    else if s = pyStr "GetRecord" then some .getRecordV
    else if s = pyStr "ListRecords" then some .listRecordsV
    else if s = pyStr "ListIdentifiers" then some .listIdentifiersV
    else if s = pyStr "ListMetadataFormats" then some .listMetadataFormatsV
    else if s = pyStr "ListSets" then some .listSetsV
    else none

/-- The handler dispatch of `handle_request`. -/
def Repository.dispatchVerb {ρ V : Type} (repo : Repository ρ V) (v : VerbT) (r : OAIRequest) :
    Except PyExc (OAIResponse ρ) :=
  match v with
  | .identifyV => repo.identify r
  | .getRecordV => repo.get_record r
  | .listRecordsV => repo.list_records r
  | .listIdentifiersV => repo.list_identifiers r
  | .listMetadataFormatsV => repo.list_metadata_formats r
  | .listSetsV => repo.list_sets r

/-- `repository.Repository.handle_request`: parse, global syntax check,
verb lookup, then the handler wrapped in the `try` that maps
`BadArgumentError` and `SetNameError` to `badArgument`,
`DoesNotExistError` to `idDoesNotExist` and `BadResumptionTokenError` to
`badResumptionToken`; any other exception propagates out. -/
def Repository.handle_request {ρ V : Type} (repo : Repository ρ V) (q : ParsedQS) :
    Except PyExc (OAIResponse ρ) :=
  let r := oairequest_from_querystring q
  if has_illegal_args q || has_repeated_args q then .ok .badArgument
  else
    match verbLookup r.verb with
    | none => .ok .badVerb
    | some v =>
      match repo.dispatchVerb v r with
      | .ok resp => .ok resp
      | .error .badArgumentError => .ok .badArgument
      | .error .setNameError => .ok .badArgument
      | .error .doesNotExistError => .ok .idDoesNotExist
      | .error .badResumptionTokenError => .ok .badResumptionToken
      | .error e => .error e

/-- Iterated cursor advancement over a stream of pages: stop with `.ok
none` when `next` returns no cursor, propagate any exception, and return
the current cursor when the step budget runs out. -/
def iterShortPages {ρ : Type} (pages : Nat → List ρ) :
    Nat → Nat → ResumptionToken → Except PyExc (Option ResumptionToken)
  | _, 0, t => .ok (some t)
  | i, k + 1, t =>
    match t.next (pages i) with
    | .error e => .error e
    | .ok none => .ok none
    | .ok (some t') => iterShortPages pages (i + 1) k t'

/-- Well-formedness of a scanning cursor whose anchor year is `y`, global
upper bound `uy-um-ud` and page size `cnt`: the textual fields have the
shapes the token patterns guarantee, the year is four-digit, and the
anchor does not lie past the upper bound. -/
def ScanWF (t : ResumptionToken) (y uy um ud cnt : Nat) : Prop :=
  ∃ m d sk k cs,
    t.offset = some (.str (dateChars y m d ++ '(' :: (sk ++ [')']))) ∧
    t.count = some (.str cs) ∧
    t.until_ = some (.str (dateChars uy um ud)) ∧
    1000 ≤ y ∧ y ≤ 9999 ∧ m ≤ 99 ∧ d ≤ 99 ∧
    pyInt? sk = some k ∧ pyInt? cs = some cnt ∧
    uy ≤ 9999 ∧ 1 ≤ um ∧ um ≤ 12 ∧ 1 ≤ ud ∧ ud ≤ 31 ∧
    (y < uy ∨ (y = uy ∧ (m < um ∨ (m = um ∧ d ≤ ud))))

/-- A data store holding nothing. -/
def dsEmpty : DataStore Nat Unit :=
  { get := fun _ => none, list := fun _ _ _ _ _ => [] }

/-- A data store whose every page is the single resource `7`. -/
def dsOne : DataStore Nat Unit :=
  { get := fun _ => none, list := fun _ _ _ _ _ => [7] }

/-- A registry with a single static set `spam`. -/
def regSpam : SetsRegistry Unit :=
  { staticDefs := [({ setSpec := some (.str (pyStr "spam")), setName := some (.str (pyStr "Spam")) }, ())]
    listFn := fun _ _ => [] }

/-- The identity augmenter. -/
def fmtId : FormatEntry Nat := { augmenter := id }

/-- A repository over an empty store, page length 2, with `oai_dc`
registered and the set `spam` known. -/
def repoEmpty : Repository Nat Unit :=
  { ds := dsEmpty, setsreg := regSpam, listslen := 2, formats := [(pyStr "oai_dc", fmtId)] }

/-- A repository whose store always returns a full page of one resource
(page length 1). -/
def repoFull : Repository Nat Unit :=
  { ds := dsOne, setsreg := regSpam, listslen := 1, formats := [(pyStr "oai_dc", fmtId)] }

/-- A token-resumed `ListRecords` request whose token is syntactically
valid for the dispatcher's pattern and carries the configured count 2. -/
def qTokenResumed : ParsedQS :=
  [(pyStr "verb", [pyStr "ListRecords"]), (pyStr "resumptionToken", [pyStr ":::0:2:oai_dc"])]

/-- A fresh `ListRecords` request with registered prefix and known set. -/
def qFreshListRecords : ParsedQS :=
  [(pyStr "verb", [pyStr "ListRecords"]), (pyStr "metadataPrefix", [pyStr "oai_dc"]),
   (pyStr "set", [pyStr "spam"])]

/-- A fresh `ListIdentifiers` request with known set. -/
def qFreshListIdentifiers : ParsedQS :=
  [(pyStr "verb", [pyStr "ListIdentifiers"]), (pyStr "set", [pyStr "spam"])]

/-- A concrete well-formed cursor: window 1998-01-01 .. 1999-06-30, anchor
1998-01-01, skip 0, page size 2, prefix `oai_dc`. -/
def tC1 : ResumptionToken :=
  { set := some (.str [])
    from_ := some (.str (dateChars 1998 1 1))
    until_ := some (.str (dateChars 1999 6 30))
    offset := some (.str (dateChars 1998 1 1 ++ '(' :: (pyStr "0" ++ [')'])))
    count := some (.str (pyStr "2"))
    metadataPrefix := some (.str (pyStr "oai_dc")) }

theorem pyStrLt_cons (a b : Char) (as bs : List Char) :
    pyStrLt (a :: as) (b :: bs)
      = (decide (a.toNat < b.toNat) || (decide (a.toNat = b.toNat) && pyStrLt as bs)) := rfl

theorem pyStrLe_cons (a b : Char) (as bs : List Char) :
    pyStrLe (a :: as) (b :: bs)
      = (decide (a.toNat < b.toNat) || (decide (a.toNat = b.toNat) && pyStrLe as bs)) := rfl

theorem pyStrLt_irrefl (s : List Char) : pyStrLt s s = false := by
  induction s with
  | nil => rfl
  | cons a as ih => simp [pyStrLt_cons, ih]

theorem toNat_digitChar_mod (x : Nat) : (digitChar (x % 10)).toNat = 48 + x % 10 := by
  have h : x % 10 < 10 := Nat.mod_lt _ (by omega)
  set k := x % 10 with hk
  interval_cases k <;> rfl

theorem isDigitChar_digitChar_mod (x : Nat) : isDigitChar (digitChar (x % 10)) = true := by
  simp [isDigitChar, toNat_digitChar_mod]
  omega

theorem digits4_exist (a : Nat) (ha : a ≤ 9999) :
    ∃ p1 p2 p3 p4, p1 < 10 ∧ p2 < 10 ∧ p3 < 10 ∧ p4 < 10 ∧
      a = 1000 * p1 + 100 * p2 + 10 * p3 + p4 ∧
      a / 1000 % 10 = p1 ∧ a / 100 % 10 = p2 ∧ a / 10 % 10 = p3 ∧ a % 10 = p4 :=
  ⟨a / 1000 % 10, a / 100 % 10, a / 10 % 10, a % 10, by omega, by omega, by omega, by omega,
    by omega, rfl, rfl, rfl, rfl⟩

theorem digits2_exist (a : Nat) (ha : a ≤ 99) :
    ∃ p1 p2, p1 < 10 ∧ p2 < 10 ∧ a = 10 * p1 + p2 ∧ a / 10 % 10 = p1 ∧ a % 10 = p2 :=
  ⟨a / 10 % 10, a % 10, by omega, by omega, by omega, rfl, rfl⟩

theorem pad4_lt_iff (a b : Nat) (r s : List Char) (ha : a ≤ 9999) (hb : b ≤ 9999) :
    pyStrLt (pad4 a ++ r) (pad4 b ++ s) = true
      ↔ (a < b ∨ (a = b ∧ pyStrLt r s = true)) := by
  simp only [pad4, List.cons_append, List.nil_append, pyStrLt_cons, toNat_digitChar_mod,
    Bool.or_eq_true, Bool.and_eq_true, decide_eq_true_eq]
  obtain ⟨p1, p2, p3, p4, hp1, hp2, hp3, hp4, hpa, ep1, ep2, ep3, ep4⟩ := digits4_exist a ha
  obtain ⟨q1, q2, q3, q4, hq1, hq2, hq3, hq4, hqb, eq1, eq2, eq3, eq4⟩ := digits4_exist b hb
  simp only [ep1, ep2, ep3, ep4, eq1, eq2, eq3, eq4]
  clear ep1 ep2 ep3 ep4 eq1 eq2 eq3 eq4
  by_cases hP : pyStrLt r s = true <;> simp [hP] <;> constructor <;> intro h <;> omega

theorem pad4_le_iff (a b : Nat) (r s : List Char) (ha : a ≤ 9999) (hb : b ≤ 9999) :
    pyStrLe (pad4 a ++ r) (pad4 b ++ s) = true
      ↔ (a < b ∨ (a = b ∧ pyStrLe r s = true)) := by
  simp only [pad4, List.cons_append, List.nil_append, pyStrLe_cons, toNat_digitChar_mod,
    Bool.or_eq_true, Bool.and_eq_true, decide_eq_true_eq]
  obtain ⟨p1, p2, p3, p4, hp1, hp2, hp3, hp4, hpa, ep1, ep2, ep3, ep4⟩ := digits4_exist a ha
  obtain ⟨q1, q2, q3, q4, hq1, hq2, hq3, hq4, hqb, eq1, eq2, eq3, eq4⟩ := digits4_exist b hb
  simp only [ep1, ep2, ep3, ep4, eq1, eq2, eq3, eq4]
  clear ep1 ep2 ep3 ep4 eq1 eq2 eq3 eq4
  by_cases hP : pyStrLe r s = true <;> simp [hP] <;> constructor <;> intro h <;> omega

theorem pad2_lt_iff (a b : Nat) (r s : List Char) (ha : a ≤ 99) (hb : b ≤ 99) :
    pyStrLt (pad2 a ++ r) (pad2 b ++ s) = true
      ↔ (a < b ∨ (a = b ∧ pyStrLt r s = true)) := by
  simp only [pad2, List.cons_append, List.nil_append, pyStrLt_cons, toNat_digitChar_mod,
    Bool.or_eq_true, Bool.and_eq_true, decide_eq_true_eq]
  obtain ⟨p1, p2, hp1, hp2, hpa, ep1, ep2⟩ := digits2_exist a ha
  obtain ⟨q1, q2, hq1, hq2, hqb, eq1, eq2⟩ := digits2_exist b hb
  simp only [ep1, ep2, eq1, eq2]
  clear ep1 ep2 eq1 eq2
  by_cases hP : pyStrLt r s = true <;> simp [hP] <;> constructor <;> intro h <;> omega

theorem pad2_le_iff (a b : Nat) (r s : List Char) (ha : a ≤ 99) (hb : b ≤ 99) :
    pyStrLe (pad2 a ++ r) (pad2 b ++ s) = true
      ↔ (a < b ∨ (a = b ∧ pyStrLe r s = true)) := by
  simp only [pad2, List.cons_append, List.nil_append, pyStrLe_cons, toNat_digitChar_mod,
    Bool.or_eq_true, Bool.and_eq_true, decide_eq_true_eq]
  obtain ⟨p1, p2, hp1, hp2, hpa, ep1, ep2⟩ := digits2_exist a ha
  obtain ⟨q1, q2, hq1, hq2, hqb, eq1, eq2⟩ := digits2_exist b hb
  simp only [ep1, ep2, eq1, eq2]
  clear ep1 ep2 eq1 eq2
  by_cases hP : pyStrLe r s = true <;> simp [hP] <;> constructor <;> intro h <;> omega

theorem dateChars_lt_iff (y1 m1 d1 y2 m2 d2 : Nat)
    (hy1 : y1 ≤ 9999) (hy2 : y2 ≤ 9999) (hm1 : m1 ≤ 99) (hm2 : m2 ≤ 99)
    (hd1 : d1 ≤ 99) (hd2 : d2 ≤ 99) :
    pyStrLt (dateChars y1 m1 d1) (dateChars y2 m2 d2) = true
      ↔ (y1 < y2 ∨ (y1 = y2 ∧ (m1 < m2 ∨ (m1 = m2 ∧ d1 < d2)))) := by
  unfold dateChars
  rw [pad4_lt_iff _ _ _ _ hy1 hy2]
  have hdash : pyStrLt ('-' :: (pad2 m1 ++ '-' :: pad2 d1)) ('-' :: (pad2 m2 ++ '-' :: pad2 d2))
      = pyStrLt (pad2 m1 ++ '-' :: pad2 d1) (pad2 m2 ++ '-' :: pad2 d2) := by
    simp [pyStrLt_cons]
  rw [hdash, pad2_lt_iff _ _ _ _ hm1 hm2]
  have hdash2 : pyStrLt ('-' :: pad2 d1) ('-' :: pad2 d2) = pyStrLt (pad2 d1) (pad2 d2) := by
    simp [pyStrLt_cons]
  rw [hdash2]
  have hlast : pyStrLt (pad2 d1) (pad2 d2) = pyStrLt (pad2 d1 ++ []) (pad2 d2 ++ []) := by
    simp
  rw [hlast, pad2_lt_iff _ _ _ _ hd1 hd2]
  simp [pyStrLt]

theorem dateChars_le_iff (y1 m1 d1 y2 m2 d2 : Nat)
    (hy1 : y1 ≤ 9999) (hy2 : y2 ≤ 9999) (hm1 : m1 ≤ 99) (hm2 : m2 ≤ 99)
    (hd1 : d1 ≤ 99) (hd2 : d2 ≤ 99) :
    pyStrLe (dateChars y1 m1 d1) (dateChars y2 m2 d2) = true
      ↔ (y1 < y2 ∨ (y1 = y2 ∧ (m1 < m2 ∨ (m1 = m2 ∧ d1 ≤ d2)))) := by
  unfold dateChars
  rw [pad4_le_iff _ _ _ _ hy1 hy2]
  have hdash : pyStrLe ('-' :: (pad2 m1 ++ '-' :: pad2 d1)) ('-' :: (pad2 m2 ++ '-' :: pad2 d2))
      = pyStrLe (pad2 m1 ++ '-' :: pad2 d1) (pad2 m2 ++ '-' :: pad2 d2) := by
    simp [pyStrLe_cons]
  rw [hdash, pad2_le_iff _ _ _ _ hm1 hm2]
  have hdash2 : pyStrLe ('-' :: pad2 d1) ('-' :: pad2 d2) = pyStrLe (pad2 d1) (pad2 d2) := by
    simp [pyStrLe_cons]
  rw [hdash2]
  have hlast : pyStrLe (pad2 d1) (pad2 d2) = pyStrLe (pad2 d1 ++ []) (pad2 d2 ++ []) := by
    simp
  rw [hlast, pad2_le_iff _ _ _ _ hd1 hd2]
  simp [pyStrLe]
  omega

theorem pyStrOfNatCore_step (fuel n : Nat) (acc : List Char) :
    pyStrOfNatCore (fuel + 1) n acc
      = if n < 10 then digitChar (n % 10) :: acc
        else pyStrOfNatCore fuel (n / 10) (digitChar (n % 10) :: acc) := rfl

theorem pyStrOfNat_four (y : Nat) (h1 : 1000 ≤ y) (h2 : y ≤ 9999) :
    pyStrOfNat y = pad4 y := by
  obtain ⟨m1, hm1⟩ : ∃ m, y = m + 1 := ⟨y - 1, by omega⟩
  obtain ⟨m2, hm2⟩ : ∃ m, m1 = m + 1 := ⟨m1 - 1, by omega⟩
  obtain ⟨m3, hm3⟩ : ∃ m, m2 = m + 1 := ⟨m2 - 1, by omega⟩
  unfold pyStrOfNat
  rw [show y + 1 = (y - 0) + 1 by omega, pyStrOfNatCore_step,
    if_neg (by omega : ¬y < 10),
    show y - 0 = m1 + 1 by omega, pyStrOfNatCore_step,
    if_neg (by omega : ¬y / 10 < 10),
    hm2, pyStrOfNatCore_step,
    if_neg (by omega : ¬y / 10 / 10 < 10),
    hm3, pyStrOfNatCore_step,
    if_pos (by omega : y / 10 / 10 / 10 < 10)]
  have e2 : y / 10 / 10 = y / 100 := by
    rw [Nat.div_div_eq_div_mul]
  have e3 : y / 10 / 10 / 10 = y / 1000 := by
    rw [e2, Nat.div_div_eq_div_mul]
  rw [e3, e2, pad4]

theorem pyInt?_pad4 (y : Nat) (h : y ≤ 9999) : pyInt? (pad4 y) = some y := by
  simp only [pyInt?, pad4, List.all_cons, List.all_nil, isDigitChar_digitChar_mod,
    List.isEmpty_cons, List.foldl, toNat_digitChar_mod]
  norm_num
  obtain ⟨p1, p2, p3, p4, hp1, hp2, hp3, hp4, hpa, ep1, ep2, ep3, ep4⟩ := digits4_exist y h
  simp only [ep1, ep2, ep3, ep4]
  omega

theorem pyInt?_digits_val (s : List Char) (k : Nat) (h : pyInt? s = some k) :
    s ≠ [] ∧ s.all isDigitChar = true := by
  by_cases h1 : s.isEmpty <;> by_cases h2 : s.all isDigitChar <;>
    simp [pyInt?, h1, h2] at h ⊢ <;> simp_all [List.isEmpty_iff]

theorem splitOnColon_cons_colonfree (p rest : List Char) (h : ':' ∉ p) :
    splitOnColon (p ++ ':' :: rest) = p :: splitOnColon rest := by
  induction p with
  | nil => simp [splitOnColon]
  | cons c cs ih =>
    have hc : c ≠ ':' := by
      intro hc
      exact h (by simp [hc])
    have hcs : ':' ∉ cs := fun hm => h (List.mem_cons_of_mem _ hm)
    simp only [List.cons_append, splitOnColon, List.append_eq, if_neg hc]
    rw [ih hcs]

theorem splitOnColon_colonfree (p : List Char) (h : ':' ∉ p) :
    splitOnColon p = [p] := by
  induction p with
  | nil => rfl
  | cons c cs ih =>
    have hc : c ≠ ':' := by
      intro hc
      exact h (by simp [hc])
    have hcs : ':' ∉ cs := fun hm => h (List.mem_cons_of_mem _ hm)
    simp only [splitOnColon, if_neg hc, ih hcs]

theorem splitOnColon_joinColon (parts : List (List Char)) (hne : parts ≠ [])
    (h : ∀ p ∈ parts, ':' ∉ p) :
    splitOnColon (joinColon parts) = parts := by
  induction parts with
  | nil => exact absurd rfl hne
  | cons p ps ih =>
    match ps with
    | [] => exact splitOnColon_colonfree p (h p (by simp))
    | q :: qs =>
      have hp : ':' ∉ p := h p (by simp)
      have hrest : ∀ x ∈ q :: qs, ':' ∉ x := fun x hx => h x (List.mem_cons_of_mem _ hx)
      show splitOnColon (p ++ ':' :: joinColon (q :: qs)) = p :: q :: qs
      rw [splitOnColon_cons_colonfree p _ hp, ih (by simp) hrest]

theorem dateChars_length (y m d : Nat) : (dateChars y m d).length = 10 := by
  simp [dateChars, pad4, pad2]

theorem pad4_length (y : Nat) : (pad4 y).length = 4 := by
  simp [pad4]

theorem paren_not_mem_dateChars (y m d : Nat) : '(' ∉ dateChars y m d := by
  intro hm
  have h40 : Char.toNat '(' = 40 := rfl
  simp only [dateChars, pad4, pad2, List.cons_append, List.nil_append, List.mem_cons,
    List.not_mem_nil, or_false] at hm
  rcases hm with h | h | h | h | h | h | h | h | h | h <;>
    first
      | (have ht := congrArg Char.toNat h
         rw [toNat_digitChar_mod, h40] at ht
         omega)
      | (exact absurd h (by decide))

theorem pyIndexOf?_paren (l r : List Char) (h : '(' ∉ l) :
    pyIndexOf? '(' (l ++ '(' :: r) = some l.length := by
  induction l with
  | nil => simp [pyIndexOf?]
  | cons c cs ih =>
    have hc : c ≠ '(' := by
      intro hc
      exact h (by simp [hc])
    have hcs : '(' ∉ cs := fun hm => h (List.mem_cons_of_mem _ hm)
    simp [pyIndexOf?, hc, ih hcs]

theorem dateChars_year_end (y : Nat) : pad4 y ++ pyStr "-12-31" = dateChars y 12 31 := by
  rw [dateChars]
  exact congrArg (pad4 y ++ ·) (by decide)

theorem query_from_eval (t : ResumptionToken) (y m d : Nat) (sk : List Char)
    (hoff : t.offset = some (.str (dateChars y m d ++ '(' :: (sk ++ [')'])))) :
    t.query_from = .ok (dateChars y m d) := by
  simp only [ResumptionToken.query_from, hoff]
  rw [← dateChars_length y m d, List.take_left]

theorem query_offset_eval (t : ResumptionToken) (y m d : Nat) (sk : List Char) (k : Nat)
    (hoff : t.offset = some (.str (dateChars y m d ++ '(' :: (sk ++ [')']))))
    (hsk : pyInt? sk = some k) :
    t.query_offset = .ok k := by
  simp only [ResumptionToken.query_offset, hoff,
    pyIndexOf?_paren _ _ (paren_not_mem_dateChars y m d), dateChars_length]
  have hd : (dateChars y m d ++ '(' :: (sk ++ [')'])).drop (10 + 1) = sk ++ [')'] := by
    rw [List.append_cons, List.drop_left' (by simp [dateChars_length])]
  simp only [hd, List.dropLast_concat, hsk]

theorem take4_dateChars (y m d : Nat) : (dateChars y m d).take 4 = pad4 y := by
  rw [dateChars, List.take_left' (pad4_length y)]

theorem query_until_eval (t : ResumptionToken) (y m d : Nat) (sk u : List Char)
    (hoff : t.offset = some (.str (dateChars y m d ++ '(' :: (sk ++ [')']))))
    (huntil : t.until_ = some (.str u)) :
    t.query_until = .ok (if pyStrLe u (dateChars y 12 31) then u else dateChars y 12 31) := by
  simp only [ResumptionToken.query_until, query_from_eval t y m d sk hoff, huntil, bind,
    Except.bind, take4_dateChars, dateChars_year_end]
  split <;> rfl

theorem has_more_search_space_eval (t : ResumptionToken) (y m d uy um ud : Nat) (sk : List Char)
    (hoff : t.offset = some (.str (dateChars y m d ++ '(' :: (sk ++ [')']))))
    (huntil : t.until_ = some (.str (dateChars uy um ud)))
    (hy : y ≤ 9999) (huy : uy ≤ 9999) (hum : um ≤ 12) (hud : ud ≤ 31) :
    t.has_more_search_space = .ok (decide (y < uy)) := by
  simp only [ResumptionToken.has_more_search_space,
    query_until_eval t y m d sk (dateChars uy um ud) hoff huntil, huntil, bind, Except.bind]
  by_cases hcase : uy ≤ y
  · have hle : pyStrLe (dateChars uy um ud) (dateChars y 12 31) = true :=
      (dateChars_le_iff uy um ud y 12 31 huy hy (by omega) (by omega) (by omega) (by omega)).mpr
        (by omega)
    rw [hle, if_pos rfl, pyStrLt_irrefl, decide_eq_false (by omega)]
  · have hle : ¬pyStrLe (dateChars uy um ud) (dateChars y 12 31) = true := by
      rw [dateChars_le_iff uy um ud y 12 31 huy hy (by omega) (by omega) (by omega) (by omega)]
      omega
    rw [Bool.not_eq_true] at hle
    rw [hle, if_neg (by simp), decide_eq_true (by omega : y < uy)]
    have hlt : pyStrLt (dateChars y 12 31) (dateChars uy um ud) = true :=
      (dateChars_lt_iff y 12 31 uy um ud hy huy (by omega) (by omega) (by omega) (by omega)).mpr
        (by omega)
    rw [hlt]

theorem has_more_resources_eval {ρ : Type} (rs : List ρ) (cs : List Char) (cnt : Nat)
    (hcs : pyInt? cs = some cnt) :
    ResumptionToken.has_more_resources rs (some (.str cs)) = .ok (rs.length == cnt) := by
  simp [ResumptionToken.has_more_resources, pyIntOfVal, hcs, bind, Except.bind]

theorem incr_offset_size_eval (t : ResumptionToken) (y m d : Nat) (sk cs : List Char) (k cnt : Nat)
    (hoff : t.offset = some (.str (dateChars y m d ++ '(' :: (sk ++ [')']))))
    (hsk : pyInt? sk = some k) (hcount : t.count = some (.str cs)) (hcs : pyInt? cs = some cnt) :
    t.incr_offset_size
      = .ok { t with offset := some (.str (dateChars y m d ++ '(' :: (pyStrOfNat (k + cnt) ++ [')']))) } := by
  simp only [ResumptionToken.incr_offset_size, query_offset_eval t y m d sk k hoff hsk,
    query_from_eval t y m d sk hoff, hcount, pyIntOfVal, hcs, bind, Except.bind]

theorem roll_offset_shape (y : Nat) (h1 : 1000 ≤ y) (h2 : y + 1 ≤ 9999) :
    pyStrOfNat (y + 1) ++ pyStr "-01-01(0)"
      = dateChars (y + 1) 1 1 ++ '(' :: ((['0'] : List Char) ++ [')']) := by
  rw [pyStrOfNat_four (y + 1) (by omega) h2, dateChars, List.append_assoc]
  exact congrArg (pad4 (y + 1) ++ ·) (by decide)

theorem incr_offset_from_eval (t : ResumptionToken) (y m d : Nat) (sk : List Char)
    (hoff : t.offset = some (.str (dateChars y m d ++ '(' :: (sk ++ [')']))))
    (hy1 : 1000 ≤ y) (hy2 : y ≤ 9999) :
    t.incr_offset_from
      = .ok { t with offset := some (.str (pyStrOfNat (y + 1) ++ pyStr "-01-01(0)")) } := by
  simp only [ResumptionToken.incr_offset_from, query_from_eval t y m d sk hoff, bind, Except.bind,
    take4_dateChars, pyInt?_pad4 y (by omega)]

theorem next_full_eval {ρ : Type} (t : ResumptionToken) (rs : List ρ) (y m d : Nat)
    (sk cs : List Char) (k cnt : Nat)
    (hoff : t.offset = some (.str (dateChars y m d ++ '(' :: (sk ++ [')']))))
    (hsk : pyInt? sk = some k) (hcount : t.count = some (.str cs)) (hcs : pyInt? cs = some cnt)
    (hlen : rs.length = cnt) :
    t.next rs
      = .ok (some { t with offset := some (.str (dateChars y m d ++ '(' :: (pyStrOfNat (k + cnt) ++ [')']))) }) := by
  have hres : ResumptionToken.has_more_resources rs t.count = .ok (rs.length == cnt) := by
    rw [hcount]
    exact has_more_resources_eval rs cs cnt hcs
  simp only [ResumptionToken.next, hres, bind, Except.bind]
  rw [if_pos (by simp [hlen]), incr_offset_size_eval t y m d sk cs k cnt hoff hsk hcount hcs]

theorem next_roll_eval {ρ : Type} (t : ResumptionToken) (rs : List ρ) (y m d uy um ud : Nat)
    (sk cs : List Char) (cnt : Nat)
    (hoff : t.offset = some (.str (dateChars y m d ++ '(' :: (sk ++ [')']))))
    (hcount : t.count = some (.str cs)) (hcs : pyInt? cs = some cnt)
    (huntil : t.until_ = some (.str (dateChars uy um ud)))
    (hy1 : 1000 ≤ y) (hy : y ≤ 9999) (huy : uy ≤ 9999) (hum : um ≤ 12) (hud : ud ≤ 31)
    (hlen : rs.length ≠ cnt) (hroll : y < uy) :
    t.next rs
      = .ok (some { t with offset := some (.str (pyStrOfNat (y + 1) ++ pyStr "-01-01(0)")) }) := by
  have hres : ResumptionToken.has_more_resources rs t.count = .ok (rs.length == cnt) := by
    rw [hcount]
    exact has_more_resources_eval rs cs cnt hcs
  simp only [ResumptionToken.next, hres,
    has_more_search_space_eval t y m d uy um ud sk hoff huntil hy huy hum hud, bind, Except.bind]
  rw [if_neg (by simp [hlen]), if_pos (by simpa using hroll),
    incr_offset_from_eval t y m d sk hoff hy1 hy]

theorem next_stop_eval {ρ : Type} (t : ResumptionToken) (rs : List ρ) (y m d uy um ud : Nat)
    (sk cs : List Char) (cnt : Nat)
    (hoff : t.offset = some (.str (dateChars y m d ++ '(' :: (sk ++ [')']))))
    (hcount : t.count = some (.str cs)) (hcs : pyInt? cs = some cnt)
    (huntil : t.until_ = some (.str (dateChars uy um ud)))
    (hy : y ≤ 9999) (huy : uy ≤ 9999) (hum : um ≤ 12) (hud : ud ≤ 31)
    (hlen : rs.length ≠ cnt) (hstop : uy ≤ y) :
    t.next rs = .ok none := by
  have hres : ResumptionToken.has_more_resources rs t.count = .ok (rs.length == cnt) := by
    rw [hcount]
    exact has_more_resources_eval rs cs cnt hcs
  simp only [ResumptionToken.next, hres,
    has_more_search_space_eval t y m d uy um ud sk hoff huntil hy huy hum hud, bind, Except.bind]
  rw [if_neg (by simp [hlen]), if_neg (by simp ; omega)]

/-- C1: cursor advancement decision rule with precedence. For every
well-formed cursor (anchor date `y-m-d`, skip digits `sk` worth `k`, count
digits `cs` worth `cnt`, global until `uy-um-ud`) and every page `rs`:
(1) when `len(rs)` equals the count, `next` returns the cursor with the
same anchor and the skip increased by the count — with no condition on the
window, so a full page at a year boundary still increments the skip;
otherwise (2) when the query window's until is strictly below the global
until (equivalently, under the date bounds, the anchor year is strictly
below the until year), `next` returns the cursor with anchor January 1 of
the following year and skip reset to `0`; otherwise (3) `next` returns no
cursor. -/
theorem C1_cursor_advancement {ρ : Type} (t : ResumptionToken) (y m d uy um ud : Nat)
    (sk cs : List Char) (k cnt : Nat)
    (hoff : t.offset = some (.str (dateChars y m d ++ '(' :: (sk ++ [')']))))
    (hsk : pyInt? sk = some k)
    (hcount : t.count = some (.str cs)) (hcs : pyInt? cs = some cnt)
    (huntil : t.until_ = some (.str (dateChars uy um ud)))
    (hy1 : 1000 ≤ y) (hy : y ≤ 9999) (huy : uy ≤ 9999) (hum : um ≤ 12) (hud : ud ≤ 31) :
    (∀ rs : List ρ, rs.length = cnt →
      t.next rs = .ok (some { t with
        offset := some (.str (dateChars y m d ++ '(' :: (pyStrOfNat (k + cnt) ++ [')']))) }))
    ∧ (∀ rs : List ρ, rs.length ≠ cnt → y < uy →
      t.next rs = .ok (some { t with
        offset := some (.str (pyStrOfNat (y + 1) ++ pyStr "-01-01(0)")) }))
    ∧ (∀ rs : List ρ, rs.length ≠ cnt → uy ≤ y → t.next rs = .ok none) := by
  refine ⟨fun rs hlen => ?_, fun rs hlen hroll => ?_, fun rs hlen hstop => ?_⟩
  · exact next_full_eval t rs y m d sk cs k cnt hoff hsk hcount hcs hlen
  · exact next_roll_eval t rs y m d uy um ud sk cs cnt hoff hcount hcs huntil hy1 hy huy hum hud
      hlen hroll
  · exact next_stop_eval t rs y m d uy um ud sk cs cnt hoff hcount hcs huntil hy huy hum hud
      hlen hstop

theorem C1_cursor_advancement_witness :
    (∀ rs : List Nat, rs.length = 2 →
      ResumptionToken.next tC1 rs = .ok (some { tC1 with
        offset := some (.str (dateChars 1998 1 1 ++ '(' :: (pyStrOfNat (0 + 2) ++ [')']))) }))
    ∧ (∀ rs : List Nat, rs.length ≠ 2 → 1998 < 1999 →
      ResumptionToken.next tC1 rs = .ok (some { tC1 with
        offset := some (.str (pyStrOfNat (1998 + 1) ++ pyStr "-01-01(0)")) }))
    ∧ (∀ rs : List Nat, rs.length ≠ 2 → 1999 ≤ 1998 →
      ResumptionToken.next tC1 rs = .ok none) :=
  C1_cursor_advancement (ρ := Nat) tC1 1998 1 1 1999 6 30 (pyStr "0") (pyStr "2") 0 2
    rfl (by decide) rfl (by decide) rfl (by omega) (by omega) (by omega) (by omega) (by omega)

/-- C6: bounded query window. For every well-formed cursor whose scan
anchor `y-m-d` does not lie past the global until `uy-um-ud`, the derived
backend window has `query_from` equal to the anchor date, `query_until`
equal to the minimum (by the string comparison the code performs) of the
global until and December 31 of the anchor's year, and the year of
`query_until` equals the year of `query_from` — each single backend query
spans at most one calendar year. -/
theorem C6_bounded_query_window (t : ResumptionToken) (y m d uy um ud : Nat) (sk : List Char)
    (hoff : t.offset = some (.str (dateChars y m d ++ '(' :: (sk ++ [')']))))
    (huntil : t.until_ = some (.str (dateChars uy um ud)))
    (hy : y ≤ 9999) (huy : uy ≤ 9999) (hum : um ≤ 12) (hud : ud ≤ 31)
    (hanchor : y < uy ∨ (y = uy ∧ (m < um ∨ (m = um ∧ d ≤ ud)))) :
    t.query_from = .ok (dateChars y m d)
    ∧ t.query_until = .ok (if pyStrLe (dateChars uy um ud) (dateChars y 12 31)
        then dateChars uy um ud else dateChars y 12 31)
    ∧ ∃ qu, t.query_until = .ok qu ∧ qu.take 4 = pad4 y := by
  refine ⟨query_from_eval t y m d sk hoff,
    query_until_eval t y m d sk (dateChars uy um ud) hoff huntil, ?_⟩
  rw [query_until_eval t y m d sk (dateChars uy um ud) hoff huntil]
  by_cases hle : pyStrLe (dateChars uy um ud) (dateChars y 12 31) = true
  · have hyy : uy = y := by
      rw [dateChars_le_iff uy um ud y 12 31 huy hy (by omega) (by omega) (by omega) (by omega)]
        at hle
      omega
    refine ⟨dateChars uy um ud, by rw [if_pos hle], ?_⟩
    rw [take4_dateChars, hyy]
  · rw [Bool.not_eq_true] at hle
    refine ⟨dateChars y 12 31, by rw [hle, if_neg (by simp)], take4_dateChars y 12 31⟩

theorem C6_bounded_query_window_witness :
    ResumptionToken.query_from tC1 = .ok (dateChars 1998 1 1)
    ∧ ResumptionToken.query_until tC1
        = .ok (if pyStrLe (dateChars 1999 6 30) (dateChars 1998 12 31)
            then dateChars 1999 6 30 else dateChars 1998 12 31)
    ∧ ∃ qu, ResumptionToken.query_until tC1 = .ok qu ∧ qu.take 4 = pad4 1998 :=
  C6_bounded_query_window tC1 1998 1 1 1999 6 30 (pyStr "0") rfl rfl
    (by omega) (by omega) (by omega) (by omega) (by omega)

theorem scan_step {ρ : Type} (t : ResumptionToken) (y uy um ud cnt : Nat)
    (hwf : ScanWF t y uy um ud cnt) (rs : List ρ) (hlen : rs.length ≠ cnt) :
    (uy ≤ y ∧ t.next rs = .ok none)
    ∨ (y < uy ∧ ∃ t', t.next rs = .ok (some t') ∧ ScanWF t' (y + 1) uy um ud cnt) := by
  obtain ⟨m, d, sk, k, cs, hoff, hcount, huntil, hy1, hy2, hm, hd, hsk, hcs, huy, hum1, hum2,
    hud1, hud2, hlex⟩ := hwf
  by_cases hcase : uy ≤ y
  · exact Or.inl ⟨hcase, next_stop_eval t rs y m d uy um ud sk cs cnt hoff hcount hcs huntil
      hy2 huy hum2 hud2 hlen hcase⟩
  · have hlt : y < uy := by omega
    refine Or.inr ⟨hlt, _,
      next_roll_eval t rs y m d uy um ud sk cs cnt hoff hcount hcs huntil hy1 hy2 huy hum2 hud2
        hlen hlt, ?_⟩
    refine ⟨1, 1, ['0'], 0, cs, ?_, hcount, huntil, by omega, by omega, by omega, by omega,
      by decide, hcs, huy, hum1, hum2, hud1, hud2, by omega⟩
    show some (PyVal.str (pyStrOfNat (y + 1) ++ pyStr "-01-01(0)"))
        = some (.str (dateChars (y + 1) 1 1 ++ '(' :: ((['0'] : List Char) ++ [')'])))
    rw [roll_offset_shape y hy1 (by omega)]

theorem scan_iter {ρ : Type} (pages : Nat → List ρ) (uy um ud cnt : Nat)
    (hpages : ∀ i, (pages i).length ≠ cnt) :
    ∀ n i t y, ScanWF t y uy um ud cnt → uy - y ≤ n →
      iterShortPages pages i (n + 1) t = .ok none := by
  intro n
  induction n with
  | zero =>
    intro i t y hwf hb
    have hyuy : y ≤ uy := by
      obtain ⟨m, d, sk, k, cs, h1, h2, h3, h4, h5, h6, h7, h8, h9, h10, h11, h12, h13, h14,
        hlex⟩ := hwf
      omega
    rcases scan_step t y uy um ud cnt hwf (pages i) (hpages i) with ⟨hle, hnext⟩ | ⟨hlt, _⟩
    · simp [iterShortPages, hnext]
    · omega
  | succ n ih =>
    intro i t y hwf hb
    rcases scan_step t y uy um ud cnt hwf (pages i) (hpages i) with ⟨hle, hnext⟩ |
      ⟨hlt, t', hnext, hwf'⟩
    · simp [iterShortPages, hnext]
    · simp only [iterShortPages, hnext]
      exact ih (i + 1) t' (y + 1) hwf' (by omega)

/-- C2: monotonic termination of pagination. For every well-formed cursor
(invariant `ScanWF`: anchor year `y` within the window, four-digit years,
until `uy-um-ud`, page size `cnt`) whose `from` field carries year `fy ≤
y`: (a) calling `next` with any non-full page either terminates (no
cursor) or strictly advances the anchor year, re-establishing the
invariant; and (b) iterating `next` over any stream of non-full pages
terminates with no cursor emitted within `uy - fy + 1` steps — at most
`until.year - from.year + 1` year-rollovers, so pagination can never loop
forever. Full pages (rule 1) never change the anchor year, so only the
short-page steps counted here roll the year. -/
theorem C2_monotonic_termination {ρ : Type} (pages : Nat → List ρ) (t : ResumptionToken)
    (y uy um ud cnt fy fm fd : Nat)
    (hwf : ScanWF t y uy um ud cnt)
    (hfrom : t.from_ = some (.str (dateChars fy fm fd))) (hfy : fy ≤ y)
    (hpages : ∀ i, (pages i).length ≠ cnt) :
    (∀ rs : List ρ, rs.length ≠ cnt →
      t.next rs = .ok none
      ∨ ∃ t', t.next rs = .ok (some t') ∧ ScanWF t' (y + 1) uy um ud cnt)
    ∧ iterShortPages pages 0 (uy - fy + 1) t = .ok none := by
  constructor
  · intro rs hlen
    rcases scan_step t y uy um ud cnt hwf rs hlen with ⟨_, hnext⟩ | ⟨_, t', hnext, hwf'⟩
    · exact Or.inl hnext
    · exact Or.inr ⟨t', hnext, hwf'⟩
  · have hyuy : y ≤ uy := by
      obtain ⟨m, d, sk, k, cs, h1, h2, h3, h4, h5, h6, h7, h8, h9, h10, h11, h12, h13, h14,
        hlex⟩ := hwf
      omega
    exact scan_iter pages uy um ud cnt hpages (uy - fy) 0 t y hwf (by omega)

theorem C2_monotonic_termination_witness :
    (∀ rs : List Nat, rs.length ≠ 2 →
      ResumptionToken.next tC1 rs = .ok none
      ∨ ∃ t', ResumptionToken.next tC1 rs = .ok (some t') ∧ ScanWF t' (1998 + 1) 1999 6 30 2)
    ∧ iterShortPages (fun _ => ([] : List Nat)) 0 (1999 - 1998 + 1) tC1 = .ok none :=
  C2_monotonic_termination (fun _ => ([] : List Nat)) tC1 1998 1999 6 30 2 1998 1 1
    ⟨1, 1, pyStr "0", 0, pyStr "2", rfl, rfl, rfl, by omega, by omega, by omega, by omega,
      by decide, by decide, by omega, by omega, by omega, by omega, by omega, by omega⟩
    rfl (by omega) (fun _ => by simp)

/-- C8: cursor round-trip at the string level. For every cursor whose six
field values contain no `:` (after `ensure_str`), decoding the encoded
form yields a cursor equal to the original under the cursor's own equality
(`__eq__`, defined over the canonical encoding), the round-tripped cursor
re-encodes to exactly the same token string, and `None`/absent fields
encode to the empty string. -/
theorem C8_cursor_roundtrip (t : ResumptionToken)
    (h : ∀ f ∈ tokenFieldsList t, ':' ∉ ensureStr f) :
    (ResumptionToken.decode t.encode).encode = t.encode
    ∧ tokensEq (ResumptionToken.decode t.encode) t = true
    ∧ ensureStr none = [] := by
  have hparts : ∀ p ∈ [ensureStr t.set, ensureStr t.from_, ensureStr t.until_,
      ensureStr t.offset, ensureStr t.count, ensureStr t.metadataPrefix], ':' ∉ p := by
    intro p hp
    simp only [List.mem_cons, List.not_mem_nil, or_false] at hp
    rcases hp with rfl | rfl | rfl | rfl | rfl | rfl
    · exact h t.set (by simp [tokenFieldsList])
    · exact h t.from_ (by simp [tokenFieldsList])
    · exact h t.until_ (by simp [tokenFieldsList])
    · exact h t.offset (by simp [tokenFieldsList])
    · exact h t.count (by simp [tokenFieldsList])
    · exact h t.metadataPrefix (by simp [tokenFieldsList])
  have hmap : (tokenFieldsList t).map ensureStr
      = [ensureStr t.set, ensureStr t.from_, ensureStr t.until_, ensureStr t.offset,
         ensureStr t.count, ensureStr t.metadataPrefix] := rfl
  have hsplit : splitOnColon t.encode
      = [ensureStr t.set, ensureStr t.from_, ensureStr t.until_, ensureStr t.offset,
         ensureStr t.count, ensureStr t.metadataPrefix] := by
    show splitOnColon (joinColon ((tokenFieldsList t).map ensureStr)) = _
    rw [hmap]
    exact splitOnColon_joinColon _ (by simp) hparts
  have hdec : ResumptionToken.decode t.encode
      = { set := some (.str (ensureStr t.set)), from_ := some (.str (ensureStr t.from_))
          until_ := some (.str (ensureStr t.until_)), offset := some (.str (ensureStr t.offset))
          count := some (.str (ensureStr t.count))
          metadataPrefix := some (.str (ensureStr t.metadataPrefix)) } := by
    simp [ResumptionToken.decode, hsplit]
  have henc : (ResumptionToken.decode t.encode).encode = t.encode := by
    rw [hdec]
    simp [ResumptionToken.encode, tokenFieldsList, ensureStr]
  refine ⟨henc, ?_, rfl⟩
  simp [tokensEq, henc]

theorem C8_cursor_roundtrip_witness :
    (ResumptionToken.decode tC1.encode).encode = tC1.encode
    ∧ tokensEq (ResumptionToken.decode tC1.encode) tC1 = true
    ∧ ensureStr none = [] :=
  C8_cursor_roundtrip tC1 (by decide)

/-- C9 counterexample: the claim states that decode assigns the empty
string — "not an error and not a missing value" — to every missing
trailing field. On the two-field token `a:b` the code assigns the missing
value `None` (each absent kwarg becomes `None` in `__init__`), not the
empty string `''`. -/
theorem C9_short_token_counterexample :
    (ResumptionToken.decode (pyStr "a:b")).until_ = none
    ∧ (ResumptionToken.decode (pyStr "a:b")).until_ ≠ some (.str []) := by decide

/-- C9 amended: decode splits strictly on `:` and assigns the missing
value `None` (which `ensure_str` encodes back to the empty string) to
every missing trailing field; decode itself never rejects a token —
structural invalidity is caught only by the per-verb syntax-pattern
validation of `new_from_request`, which rejects any truthy token failing
its verb's pattern. -/
theorem C9_short_token_decode (s : List Char) (i : Nat) (hi : i < 6)
    (hlen : (splitOnColon s).length ≤ i) :
    (tokenField i (ResumptionToken.decode s) = none
      ∧ ensureStr (tokenField i (ResumptionToken.decode s)) = [])
    ∧ (∀ (r : OAIRequest) (dc : Nat) (df du : List Char) (pat : List Char → Bool)
        (tok : List Char),
        entitiesPatternFor r.verb = some pat → r.resumptionToken = some tok → tok ≠ [] →
        pat tok = false →
        ResumptionToken.new_from_request r dc df du = .error .badResumptionTokenError) := by
  constructor
  · have hnone : (splitOnColon s)[i]? = none := by
      rw [List.getElem?_eq_none_iff]
      exact hlen
    interval_cases i <;>
      simp [tokenField, tokenFieldsList, ResumptionToken.decode, hnone, ensureStr]
  · intro r dc df du pat tok hpat htok hne hfail
    simp [ResumptionToken.new_from_request, htok, hpat, hfail, pyTruthy, hne]

theorem C9_short_token_decode_witness :
    ((splitOnColon (pyStr "a:b")).length ≤ 2)
    ∧ (tokenField 2 (ResumptionToken.decode (pyStr "a:b")) = none
        ∧ ensureStr (tokenField 2 (ResumptionToken.decode (pyStr "a:b"))) = [])
    ∧ ResumptionToken.new_from_request
        { verb := some (pyStr "ListRecords"), identifier := none, metadataPrefix := none,
          set := none, resumptionToken := some (pyStr "a:b"), from_ := none, until_ := none }
        100 (pyStr "1998-01-01") (pyStr "1998-12-31")
        = .error .badResumptionTokenError := by
  refine ⟨by decide, (C9_short_token_decode (pyStr "a:b") 2 (by omega) (by decide)).1, ?_⟩
  exact (C9_short_token_decode (pyStr "a:b") 2 (by omega) (by decide)).2
    _ 100 _ _ entitiesListRecordsPattern (pyStr "a:b") rfl rfl (by decide) (by decide)

theorem matchNat_pyInt (p : List Char) (h : matchNat p = true) :
    pyInt? p = some (p.foldl (fun a c => a * 10 + (c.toNat - 48)) 0) := by
  rw [pyInt?, if_pos (by simpa [matchNat] using h)]

theorem entitiesPatternFor_cases (v : Option (List Char)) (pat : List Char → Bool)
    (h : entitiesPatternFor v = some pat) :
    pat = entitiesListRecordsPattern ∨ pat = entitiesListIdentifiersPattern
      ∨ pat = entitiesListSetsPattern := by
  match v with
  | none => simp [entitiesPatternFor] at h
  | some s =>
    simp only [entitiesPatternFor] at h
    split_ifs at h <;> simp_all

theorem entitiesPattern_split (pat : List Char → Bool)
    (hp : pat = entitiesListRecordsPattern ∨ pat = entitiesListIdentifiersPattern
      ∨ pat = entitiesListSetsPattern)
    (tok : List Char) (h : pat tok = true) :
    ∃ p0 p1 p2 p3 p4 p5, splitOnColon tok = [p0, p1, p2, p3, p4, p5] ∧ matchNat p4 = true := by
  rcases hp with rfl | rfl | rfl <;>
    · simp only [entitiesListRecordsPattern, entitiesListIdentifiersPattern,
        entitiesListSetsPattern, matchesSix] at h
      split at h
      case _ p0 p1 p2 p3 p4 p5 heq =>
        refine ⟨p0, p1, p2, p3, p4, p5, heq, ?_⟩
        simp only [Bool.and_eq_true] at h
        tauto
      case _ => exact absurd h (by simp)

/-- C7: resumption-token acceptance. For every request carrying a
non-empty resumption token for a verb with a token pattern,
`entities.ResumptionToken.new_from_request` raises the
bad-resumption-token error if and only if the token fails the verb's
syntax pattern or its decoded `count` field (the fifth `:`-separated
field) parses to a value different from the server-configured page
length; and for every request without a token a fresh cursor is minted
from the request fields and the server defaults, raising no error. -/
theorem C7_token_acceptance (r : OAIRequest) (dc : Nat) (df du : List Char)
    (pat : List Char → Bool) (tok : List Char)
    (hpat : entitiesPatternFor r.verb = some pat)
    (htok : r.resumptionToken = some tok) (hne : tok ≠ []) :
    (ResumptionToken.new_from_request r dc df du = .error .badResumptionTokenError
      ↔ (pat tok = false
          ∨ ∃ c, pyInt? ((splitOnColon tok).getD 4 []) = some c ∧ c ≠ dc))
    ∧ (∀ r2 : OAIRequest, pyTruthy r2.resumptionToken = false →
        ResumptionToken.new_from_request r2 dc df du
          = .ok { set := r2.set.map .str
                  from_ := some (.str ((r2.from_.filter (fun s => !s.isEmpty)).getD df))
                  until_ := some (.str ((r2.until_.filter (fun s => !s.isEmpty)).getD du))
                  offset := some (.str ((r2.from_.filter (fun s => !s.isEmpty)).getD df
                    ++ pyStr "(0)"))
                  count := some (.str (pyStrOfNat dc))
                  metadataPrefix := r2.metadataPrefix.map .str }) := by
  constructor
  · have htr : pyTruthy (some tok) = true := by
      cases tok with
      | nil => exact absurd rfl hne
      | cons c cs => rfl
    by_cases hfail : pat tok = true
    · obtain ⟨p0, p1, p2, p3, p4, p5, hsp, hnat⟩ :=
        entitiesPattern_split pat (entitiesPatternFor_cases r.verb pat hpat) tok hfail
      have hint := matchNat_pyInt p4 hnat
      have hcnt : (ResumptionToken.decode tok).count = some (.str p4) := by
        simp [ResumptionToken.decode, hsp]
      have hgetD : (splitOnColon tok).getD 4 [] = p4 := by
        rw [hsp]
        rfl
      have hred : ResumptionToken.new_from_request r dc df du
          = if p4.foldl (fun a c => a * 10 + (c.toNat - 48)) 0 ≠ dc
            then .error .badResumptionTokenError
            else .ok (ResumptionToken.decode tok) := by
        simp only [ResumptionToken.new_from_request, htok, htr, if_true, hpat, hfail,
          Bool.not_true, Bool.false_eq_true, if_false, Option.getD_some, hcnt, pyIntOfVal, hint]
      rw [hred, hgetD]
      by_cases hdc : p4.foldl (fun a c => a * 10 + (c.toNat - 48)) 0 = dc
      · rw [if_neg (by omega)]
        constructor
        · intro hcontra
          exact absurd hcontra (by simp)
        · intro hor
          rcases hor with hl | ⟨c, hc, hcdc⟩
          · rw [hfail] at hl
            exact absurd hl (by simp)
          · rw [hint] at hc
            exact absurd (Option.some.inj hc) (by omega)
      · rw [if_pos hdc]
        exact ⟨fun _ => Or.inr ⟨_, hint, hdc⟩, fun _ => rfl⟩
    · rw [Bool.not_eq_true] at hfail
      have hred : ResumptionToken.new_from_request r dc df du
          = .error .badResumptionTokenError := by
        simp only [ResumptionToken.new_from_request, htok, htr, if_true, hpat, hfail,
          Bool.not_false, if_true, Option.getD_some]
      rw [hred]
      exact ⟨fun _ => Or.inl hfail, fun _ => rfl⟩
  · intro r2 h2
    simp [ResumptionToken.new_from_request, h2]

theorem C7_token_acceptance_witness :
    (ResumptionToken.new_from_request
        { verb := some (pyStr "ListRecords"), identifier := none, metadataPrefix := none,
          set := none, resumptionToken := some (pyStr ":::1998-01-01(0):100:oai_dc"),
          from_ := none, until_ := none }
        100 (pyStr "1998-01-01") (pyStr "1998-12-31")
        = .error .badResumptionTokenError
      ↔ (entitiesListRecordsPattern (pyStr ":::1998-01-01(0):100:oai_dc") = false
          ∨ ∃ c, pyInt? ((splitOnColon (pyStr ":::1998-01-01(0):100:oai_dc")).getD 4 [])
              = some c ∧ c ≠ 100))
    ∧ (∀ r2 : OAIRequest, pyTruthy r2.resumptionToken = false →
        ResumptionToken.new_from_request r2 100 (pyStr "1998-01-01") (pyStr "1998-12-31")
          = .ok { set := r2.set.map .str
                  from_ := some (.str ((r2.from_.filter (fun s => !s.isEmpty)).getD
                    (pyStr "1998-01-01")))
                  until_ := some (.str ((r2.until_.filter (fun s => !s.isEmpty)).getD
                    (pyStr "1998-12-31")))
                  offset := some (.str ((r2.from_.filter (fun s => !s.isEmpty)).getD
                    (pyStr "1998-01-01") ++ pyStr "(0)"))
                  count := some (.str (pyStrOfNat 100))
                  metadataPrefix := r2.metadataPrefix.map .str }) :=
  C7_token_acceptance _ 100 _ _ entitiesListRecordsPattern (pyStr ":::1998-01-01(0):100:oai_dc")
    rfl rfl (by decide)

/-- C5 counterexample: the claim states the per-verb validators accept only
(a) `verb` plus a token and nothing else, or (b) a token-less shape,
rejecting in particular `identifier` alongside a token. The code accepts
`{verb, resumptionToken, identifier}` for both listing verbs: neither
validator inspects `identifier` at all. -/
theorem C5_validator_counterexample :
    check_listrecords_args [pyStr "verb", pyStr "resumptionToken", pyStr "identifier"] = true
    ∧ check_listidentifiers_args [pyStr "verb", pyStr "resumptionToken", pyStr "identifier"]
        = true := by decide

/-- C5 amended: argument legality matrix for the listing verbs, over any
set of present argument names drawn from the seven legal keys. Each
validator requires `verb`; with a resumption token present it rejects
exactly the presence of any of `from`, `until`, `set`, `metadataPrefix`;
without a token, `metadataPrefix` is mandatory for `ListRecords` and
forbidden for `ListIdentifiers`. The `identifier` argument is ignored by
both validators and may accompany either shape (this is where the original
claim fails). -/
theorem C5_validator_matrix (l : List (List Char)) (hl : ∀ x ∈ l, x ∈ legalArgNames) :
    (check_listrecords_args l = true ↔ (pyStr "verb" ∈ l
      ∧ ((pyStr "resumptionToken" ∈ l ∧ pyStr "from" ∉ l ∧ pyStr "until" ∉ l
          ∧ pyStr "set" ∉ l ∧ pyStr "metadataPrefix" ∉ l)
        ∨ (pyStr "resumptionToken" ∉ l ∧ pyStr "metadataPrefix" ∈ l))))
    ∧ (check_listidentifiers_args l = true ↔ (pyStr "verb" ∈ l
      ∧ ((pyStr "resumptionToken" ∈ l ∧ pyStr "from" ∉ l ∧ pyStr "until" ∉ l
          ∧ pyStr "set" ∉ l ∧ pyStr "metadataPrefix" ∉ l)
        ∨ (pyStr "resumptionToken" ∉ l ∧ pyStr "metadataPrefix" ∉ l)))) := by
  constructor
  · simp only [check_listrecords_args]
    split_ifs with h1 h2 <;> simp_all <;> tauto
  · simp only [check_listidentifiers_args]
    split_ifs with h1 h2 <;> simp_all <;> tauto

theorem C5_validator_matrix_witness :
    (∀ x ∈ [pyStr "verb", pyStr "metadataPrefix"], x ∈ legalArgNames)
    ∧ (check_listrecords_args [pyStr "verb", pyStr "metadataPrefix"] = true
      ↔ (pyStr "verb" ∈ [pyStr "verb", pyStr "metadataPrefix"]
        ∧ ((pyStr "resumptionToken" ∈ [pyStr "verb", pyStr "metadataPrefix"]
            ∧ pyStr "from" ∉ [pyStr "verb", pyStr "metadataPrefix"]
            ∧ pyStr "until" ∉ [pyStr "verb", pyStr "metadataPrefix"]
            ∧ pyStr "set" ∉ [pyStr "verb", pyStr "metadataPrefix"]
            ∧ pyStr "metadataPrefix" ∉ [pyStr "verb", pyStr "metadataPrefix"])
          ∨ (pyStr "resumptionToken" ∉ [pyStr "verb", pyStr "metadataPrefix"]
            ∧ pyStr "metadataPrefix" ∈ [pyStr "verb", pyStr "metadataPrefix"]))))
    ∧ (check_listidentifiers_args [pyStr "verb", pyStr "metadataPrefix"] = true
      ↔ (pyStr "verb" ∈ [pyStr "verb", pyStr "metadataPrefix"]
        ∧ ((pyStr "resumptionToken" ∈ [pyStr "verb", pyStr "metadataPrefix"]
            ∧ pyStr "from" ∉ [pyStr "verb", pyStr "metadataPrefix"]
            ∧ pyStr "until" ∉ [pyStr "verb", pyStr "metadataPrefix"]
            ∧ pyStr "set" ∉ [pyStr "verb", pyStr "metadataPrefix"]
            ∧ pyStr "metadataPrefix" ∉ [pyStr "verb", pyStr "metadataPrefix"])
          ∨ (pyStr "resumptionToken" ∉ [pyStr "verb", pyStr "metadataPrefix"]
            ∧ pyStr "metadataPrefix" ∉ [pyStr "verb", pyStr "metadataPrefix"])))) :=
  ⟨by decide, C5_validator_matrix [pyStr "verb", pyStr "metadataPrefix"] (by decide)⟩

theorem checkLR_iff (l : List (List Char)) :
    check_listrecords_args l = true ↔ (pyStr "verb" ∈ l
      ∧ ((pyStr "resumptionToken" ∈ l ∧ pyStr "from" ∉ l ∧ pyStr "until" ∉ l
          ∧ pyStr "set" ∉ l ∧ pyStr "metadataPrefix" ∉ l)
        ∨ (pyStr "resumptionToken" ∉ l ∧ pyStr "metadataPrefix" ∈ l))) := by
  simp only [check_listrecords_args]
  split_ifs with h1 h2 <;> simp_all <;> tauto

theorem checkLI_iff (l : List (List Char)) :
    check_listidentifiers_args l = true ↔ (pyStr "verb" ∈ l
      ∧ ((pyStr "resumptionToken" ∈ l ∧ pyStr "from" ∉ l ∧ pyStr "until" ∉ l
          ∧ pyStr "set" ∉ l ∧ pyStr "metadataPrefix" ∉ l)
        ∨ (pyStr "resumptionToken" ∉ l ∧ pyStr "metadataPrefix" ∉ l))) := by
  simp only [check_listidentifiers_args]
  split_ifs with h1 h2 <;> simp_all <;> tauto

theorem mem_detectedArgs (r : OAIRequest) (n : List Char) :
    n ∈ detectedArgs r
      ↔ ((pyTruthy r.verb = true ∧ n = pyStr "verb")
        ∨ (pyTruthy r.identifier = true ∧ n = pyStr "identifier")
        ∨ (pyTruthy r.metadataPrefix = true ∧ n = pyStr "metadataPrefix")
        ∨ (pyTruthy r.set = true ∧ n = pyStr "set")
        ∨ (pyTruthy r.resumptionToken = true ∧ n = pyStr "resumptionToken")
        ∨ (pyTruthy r.from_ = true ∧ n = pyStr "from")
        ∨ (pyTruthy r.until_ = true ∧ n = pyStr "until")) := by
  simp only [detectedArgs, argPairs, List.mem_map, List.mem_filter, List.mem_cons,
    List.not_mem_nil, or_false]
  constructor
  · rintro ⟨p, ⟨hp | hp | hp | hp | hp | hp | hp, ht⟩, hn⟩ <;> subst hp <;>
      simp_all <;> tauto
  · rintro (⟨ht, rfl⟩ | ⟨ht, rfl⟩ | ⟨ht, rfl⟩ | ⟨ht, rfl⟩ | ⟨ht, rfl⟩ | ⟨ht, rfl⟩ | ⟨ht, rfl⟩)
    · exact ⟨_, ⟨Or.inl rfl, ht⟩, rfl⟩
    · exact ⟨_, ⟨Or.inr (Or.inl rfl), ht⟩, rfl⟩
    · exact ⟨_, ⟨Or.inr (Or.inr (Or.inl rfl)), ht⟩, rfl⟩
    · exact ⟨_, ⟨Or.inr (Or.inr (Or.inr (Or.inl rfl))), ht⟩, rfl⟩
    · exact ⟨_, ⟨Or.inr (Or.inr (Or.inr (Or.inr (Or.inl rfl)))), ht⟩, rfl⟩
    · exact ⟨_, ⟨Or.inr (Or.inr (Or.inr (Or.inr (Or.inr (Or.inl rfl))))), ht⟩, rfl⟩
    · exact ⟨_, ⟨Or.inr (Or.inr (Or.inr (Or.inr (Or.inr (Or.inr rfl))))), ht⟩, rfl⟩

theorem rt_not_mem_detectedArgs (r : OAIRequest) (h : pyTruthy r.resumptionToken = false) :
    pyStr "resumptionToken" ∉ detectedArgs r := by
  intro hm
  rcases (mem_detectedArgs r _).mp hm with ⟨h1, h2⟩ | ⟨h1, h2⟩ | ⟨h1, h2⟩ | ⟨h1, h2⟩ |
    ⟨h1, h2⟩ | ⟨h1, h2⟩ | ⟨h1, h2⟩ <;>
    first
      | (exact absurd h2 (by decide))
      | (exact absurd h1 (by simp [h]))

theorem mp_not_mem_detectedArgs (r : OAIRequest) (h : pyTruthy r.metadataPrefix = false) :
    pyStr "metadataPrefix" ∉ detectedArgs r := by
  intro hm
  rcases (mem_detectedArgs r _).mp hm with ⟨h1, h2⟩ | ⟨h1, h2⟩ | ⟨h1, h2⟩ | ⟨h1, h2⟩ |
    ⟨h1, h2⟩ | ⟨h1, h2⟩ | ⟨h1, h2⟩ <;>
    first
      | (exact absurd h2 (by decide))
      | (exact absurd h1 (by simp [h]))

/-- C10: a listing request (ListRecords with a registered metadata prefix,
or ListIdentifiers) whose `set` argument is absent is nevertheless
rejected as a bad-argument error whenever the sets registry has no view
registered under the absent key: the fresh cursor carries `set = None`,
`get_view(None)` returns nothing, `_filter_records` raises
`SetNameError`, and `handle_request` maps it to the bad-argument
response. There is no implicit all-records default view. -/
theorem C10_absent_set_rejected {ρ V : Type} (repo : Repository ρ V) (q : ParsedQS)
    (mp : List Char)
    (hillegal : has_illegal_args q = false) (hrep : has_repeated_args q = false)
    (hset : get_or_default q (pyStr "set") = none)
    (htok : get_or_default q (pyStr "resumptionToken") = none)
    (hview : repo.setsreg.get_view none = none) :
    (get_or_default q (pyStr "verb") = some (pyStr "ListRecords") →
      get_or_default q (pyStr "metadataPrefix") = some mp → mp ≠ [] →
      formatsMem repo.formats (some mp) = true →
      repo.handle_request q = .ok .badArgument)
    ∧ (get_or_default q (pyStr "verb") = some (pyStr "ListIdentifiers") →
      get_or_default q (pyStr "metadataPrefix") = none →
      repo.handle_request q = .ok .badArgument) := by
  have hrs : (oairequest_from_querystring q).set = none := hset
  have hrt : (oairequest_from_querystring q).resumptionToken = none := htok
  have htrt : pyTruthy (oairequest_from_querystring q).resumptionToken = false := by
    rw [hrt]
    rfl
  have hfresh : get_resumption_token_from_request (oairequest_from_querystring q) repo.listslen
      = .ok { set := ((oairequest_from_querystring q).set).map .str
              from_ := ((oairequest_from_querystring q).from_).map .str
              until_ := ((oairequest_from_querystring q).until_).map .str
              offset := some (.str (pyStr "0"))
              count := some (.int repo.listslen)
              metadataPrefix := ((oairequest_from_querystring q).metadataPrefix).map .str } := by
    simp [get_resumption_token_from_request, htrt]
  constructor
  · intro hverb hmp hmpne hreg
    have hrv : (oairequest_from_querystring q).verb = some (pyStr "ListRecords") := hverb
    have hrm : (oairequest_from_querystring q).metadataPrefix = some mp := hmp
    have htrv : pyTruthy (oairequest_from_querystring q).verb = true := by
      rw [hrv]
      rfl
    have htrm : pyTruthy (oairequest_from_querystring q).metadataPrefix = true := by
      rw [hrm]
      cases mp with
      | nil => exact absurd rfl hmpne
      | cons c cs => rfl
    have hcheck : check_listrecords_args (detectedArgs (oairequest_from_querystring q))
        = true :=
      (checkLR_iff _).mpr ⟨(mem_detectedArgs _ _).mpr (Or.inl ⟨htrv, rfl⟩),
        Or.inr ⟨rt_not_mem_detectedArgs _ htrt,
          (mem_detectedArgs _ _).mpr (Or.inr (Or.inr (Or.inl ⟨htrm, rfl⟩)))⟩⟩
    obtain ⟨e, he⟩ : ∃ e, dictGet? repo.formats mp = some e := by
      have h2 := hreg
      simp only [formatsMem] at h2
      exact Option.isSome_iff_exists.mp h2
    have hlr : Repository.list_records repo (oairequest_from_querystring q)
        = .error .setNameError := by
      simp only [Repository.list_records, hcheck, Bool.not_true, Bool.false_eq_true, if_false,
        htrt, Bool.not_false, hrm, hreg, Bool.true_and, Bool.and_false, hfresh, bind,
        Except.bind, Option.map, formatsGet, he, Repository.filter_records, hrs]
      rw [hview]
    simp only [Repository.handle_request, hillegal, hrep, Bool.or_self, Bool.false_eq_true,
      if_false, hrv]
    rw [show verbLookup (some (pyStr "ListRecords")) = some VerbT.listRecordsV by decide]
    simp only [Repository.dispatchVerb, hlr]
  · intro hverb hmp
    have hrv : (oairequest_from_querystring q).verb = some (pyStr "ListIdentifiers") := hverb
    have hrm : (oairequest_from_querystring q).metadataPrefix = none := hmp
    have htrv : pyTruthy (oairequest_from_querystring q).verb = true := by
      rw [hrv]
      rfl
    have htrm : pyTruthy (oairequest_from_querystring q).metadataPrefix = false := by
      rw [hrm]
      rfl
    have hcheck : check_listidentifiers_args (detectedArgs (oairequest_from_querystring q))
        = true :=
      (checkLI_iff _).mpr ⟨(mem_detectedArgs _ _).mpr (Or.inl ⟨htrv, rfl⟩),
        Or.inr ⟨rt_not_mem_detectedArgs _ htrt, mp_not_mem_detectedArgs _ htrm⟩⟩
    have hli : Repository.list_identifiers repo (oairequest_from_querystring q)
        = .error .setNameError := by
      simp only [Repository.list_identifiers, hcheck, Bool.not_true, Bool.false_eq_true,
        if_false, hfresh, bind, Except.bind, Repository.filter_records, hrs, Option.map]
      rw [hview]
    simp only [Repository.handle_request, hillegal, hrep, Bool.or_self, Bool.false_eq_true,
      if_false, hrv]
    rw [show verbLookup (some (pyStr "ListIdentifiers")) = some VerbT.listIdentifiersV by decide]
    simp only [Repository.dispatchVerb, hli]

theorem C10_absent_set_rejected_witness :
    Repository.handle_request repoEmpty
      [(pyStr "verb", [pyStr "ListRecords"]), (pyStr "metadataPrefix", [pyStr "oai_dc"])]
      = .ok .badArgument :=
  (C10_absent_set_rejected repoEmpty
      [(pyStr "verb", [pyStr "ListRecords"]), (pyStr "metadataPrefix", [pyStr "oai_dc"])]
      (pyStr "oai_dc") (by decide) (by decide) (by decide) (by decide) (by decide)).1
    (by decide) (by decide) (by decide) (by decide)

/-- C3 (code bug): error mapping is not total. Evaluating
`handle_request` on a token-resumed `ListRecords` request whose token is
syntactically valid and carries the configured count, the request crashes
with an uncaught `AttributeError` (`decode_resumption_token` reads the
nonexistent `ResumptionToken._fields`) instead of resuming or mapping to a
protocol error; and a fresh `ListRecords` request whose first page is full
crashes with an uncaught `TypeError` when `encode_resumption_token`
iterates the non-iterable computed next cursor. Both contradict the
claim (and `get_resumption_token_from_request`'s own docstring, which
promises a `ResumptionToken` or a `BadResumptionToken` error). -/
theorem C3_error_mapping_not_total :
    Repository.handle_request repoEmpty qTokenResumed = .error .attributeError
    ∧ Repository.handle_request repoFull qFreshListRecords = .error .typeError := by
  exact ⟨by decide, by decide⟩

/-- C4 (code bug): a listing request whose backend query returns zero
resources on the first page is answered with a successful response
carrying an empty resource list and an empty resumption token — not with
the noRecordsMatch protocol error that the claim (and the repository's own
test suite, `test_empty_list_returns_norecordsmatch_error`) requires;
`repository.py` has no noRecordsMatch path at all. -/
theorem C4_empty_first_page_success :
    Repository.handle_request repoEmpty qFreshListRecords = .ok (.listRecords [] [])
    ∧ Repository.handle_request repoEmpty qFreshListIdentifiers = .ok (.listIdentifiers [] [])
    ∧ (Except.ok (OAIResponse.listRecords ([] : List Nat) [])
        ≠ (.ok .noRecordsMatch : Except PyExc (OAIResponse Nat))) := by
  exact ⟨by decide, by decide, by decide⟩
